import Mathlib

/-!
# AlgoBadduAPI — formal model of the signal-to-position execution pipeline

Shallow embedding of the core trading pipeline of the AlgoBaddu repository:

* `StrategyV30`            — `TB DHAN API ALGO/Phase-4/strategy_v30.py`
* `TrackerState` and ops   — `archive/Phase-4/position_tracker.py`
* `ManagerState` and ops   — `TB DHAN API ALGO/Phase-4/paper_order_manager.py`
* indicator stability gate — `Algo Baddu Trading API/Phase-3/indicator_calculator.py`
                             and `TB DHAN API ALGO/Phase-4/indicator_calculator.py`
* orchestrator             — `Algo Baddu API/Phase-4/live_trader_main.py`
                             and `TB DHAN API ALGO/Phase-4/live_trader_main.py`

Python floats are modelled as `ℚ`; a float that may be NaN or an absent dict
key is modelled as `Option ℚ` (with `none` for NaN/missing).  Candle
timestamps are modelled as a trading-day index plus minutes-since-midnight,
ordered lexicographically, which matches every comparison the source performs
on `pandas.Timestamp` values (`<=` of full timestamps, `.time()` extraction,
`.date()` extraction).
-/

namespace AlgoBaddu

/-- A candle timestamp: trading-day index and minutes since midnight.
`pandas.Timestamp` comparisons in the source are total lexicographic
comparisons on (date, time-of-day). -/
structure Timestamp where
  day : Nat
  minutes : Nat
deriving DecidableEq, Repr

/-- `a < b` on timestamps (lexicographic), as the source's `pandas.Timestamp <`. -/
def Timestamp.blt (a b : Timestamp) : Bool :=
  a.day < b.day || (a.day == b.day && a.minutes < b.minutes)

/-- `a <= b` on timestamps, as the source's `pandas.Timestamp <=`. -/
def Timestamp.ble (a b : Timestamp) : Bool :=
  a.day < b.day || (a.day == b.day && a.minutes ≤ b.minutes)

/-- Python's `round(x, 2)` (round-half-to-even at two decimal places),
modelled on exact rationals. -/
def round2 (q : ℚ) : ℚ :=
  let n : ℤ := ⌊q * 100⌋
  let r : ℚ := q * 100 - n
  let k : ℤ :=
    if r > 1/2 then n + 1
    else if r < 1/2 then n
    else if n % 2 = 0 then n else n + 1
  (k : ℚ) / 100

/-- An entry signal, the strings `'BUY_CE'` / `'BUY_PE'` of the source. -/
inductive Signal where
  | BUY_CE
  | BUY_PE
deriving DecidableEq, Repr

/-- Exit reasons, the strings passed to `close_position` in the source. -/
inductive ExitReason where
  | slHit          -- "SL Hit"
  | macdEmaExit    -- "MACD/EMA Exit"
  | eodExit        -- "EOD Exit"
  | forceEodClose  -- "Force EOD Close"
deriving DecidableEq, Repr

/-- An option-side candle dict (`ce_data` / `pe_data` in
`execute_pending_signal`).  `open_price` and `atr` are `Option ℚ`: `none`
models a NaN value or a missing key (`pd.isna(option_data.get(...))`). -/
structure OptionData where
  open_price : Option ℚ
  close : ℚ
  high : ℚ
  low : ℚ
  atr : Option ℚ
  strike_price : Option ℚ
deriving DecidableEq, Repr

/-- The NIFTY indicator snapshot consumed by `_check_exit_conditions`
(`nifty_indicators.get('close', 0)` etc.). -/
structure NiftyInd where
  close : ℚ
  ema : ℚ
  macd_hist : ℚ
  timestamp : Timestamp
deriving DecidableEq, Repr

/-! ## Strategy V30 (`strategy_v30.py`) -/

/-- `StrategyV30.__init__` configuration.  Defaults are the source defaults:
`ema_period=21, vi_period=21, sl_multiplier=2.0, tp_points=10`,
`MAX_SL_POINTS = 26.67`, entry window 09:30–15:10, EOD exit 15:25. -/
structure StrategyV30 where
  EMA_PERIOD : Nat := 21
  VI_PERIOD : Nat := 21
  SL_MULTIPLIER : ℚ := 2
  TP1_POINTS : ℚ := 10
  TRAIL_ATR_MULTIPLIER : ℚ := 1/2
  LOT_SIZE : ℚ := 75
  ATR_PERIOD : Nat := 14
  MAX_SL_POINTS : ℚ := 2667/100
  ENTRY_START : Nat := 570   -- time(9, 30), minutes since midnight
  ENTRY_END : Nat := 910     -- time(15, 10)
  EOD_EXIT_TIME : Nat := 925 -- time(15, 25)
deriving DecidableEq, Repr

/-- The default `StrategyV30()` instance used by the live trader. -/
def defaultStrategy : StrategyV30 := {}

/-- Result of `StrategyV30.calculate_entry_levels`. -/
structure EntryLevels where
  sl : ℚ
  tp1 : ℚ
  atr_based_sl : ℚ
deriving DecidableEq, Repr

/-- `StrategyV30.calculate_entry_levels`:
`sl = round(entry - min(SL_MULTIPLIER*atr, MAX_SL_POINTS), 2)`,
`tp1 = entry + TP1_POINTS`. -/
def StrategyV30.calculate_entry_levels (s : StrategyV30) (_side : Signal)
    (entry_price option_atr : ℚ) : EntryLevels :=
  let atr_based_sl := s.SL_MULTIPLIER * option_atr
  let actual_sl_distance := min atr_based_sl s.MAX_SL_POINTS
  { sl := round2 (entry_price - actual_sl_distance)
    tp1 := entry_price + s.TP1_POINTS
    atr_based_sl := atr_based_sl }

/-- `StrategyV30.check_tp1_hit`: `current_high >= tp1_level`. -/
def StrategyV30.check_tp1_hit (_s : StrategyV30) (_side : Signal)
    (current_high tp1_level : ℚ) : Bool :=
  tp1_level ≤ current_high

/-- `StrategyV30.check_sl_hit`: `current_close <= sl_level`. -/
def StrategyV30.check_sl_hit (_s : StrategyV30) (_side : Signal)
    (current_close sl_level : ℚ) : Bool :=
  current_close ≤ sl_level

/-- `StrategyV30.check_macd_ema_exit`: trend-reversal exit, armed only after
TP1 is hit. -/
def StrategyV30.check_macd_ema_exit (_s : StrategyV30) (side : Signal)
    (tp1_hit : Bool) (nifty_close ema macd_hist : ℚ) : Bool :=
  if !tp1_hit then false
  else
    match side with
    | .BUY_CE => nifty_close < ema || macd_hist < 0
    | .BUY_PE => ema < nifty_close || 0 < macd_hist

/-- `StrategyV30.check_eod_exit`: `current_time >= EOD_EXIT_TIME`, on the
time-of-day (minutes since midnight). -/
def StrategyV30.check_eod_exit (s : StrategyV30) (tod_minutes : Nat) : Bool :=
  s.EOD_EXIT_TIME ≤ tod_minutes

/-- One row of the NIFTY indicator dataframe, as `check_entry_signal` reads
it: `timestamp`, `vi_plus_{p}`, `vi_minus_{p}`, `ema{p}`, `close`,
`macd_hist` columns.  A `none` timestamp models a NaN timestamp cell. -/
structure Row where
  timestamp : Option Timestamp
  vi_plus : ℚ
  vi_minus : ℚ
  ema : ℚ
  close : ℚ
  macd_hist : ℚ
deriving DecidableEq, Repr

/-- `StrategyV30.check_entry_signal(df, idx)`.  Out-of-range `idx` raises
`IndexError` in the source; the embedding returns `none` there, and every
theorem about this function carries the in-range hypothesis. -/
def StrategyV30.check_entry_signal (s : StrategyV30) (df : List Row)
    (idx : Nat) : Option Signal :=
  if idx < 2 then none
  else
    match df.get? idx, df.get? (idx - 1) with
    | some row, some prev_row =>
      match row.timestamp with
      | none => none
      | some ts =>
        if !(s.ENTRY_START ≤ ts.minutes && ts.minutes ≤ s.ENTRY_END) then none
        else
          let is_bullish_vortex :=
            row.vi_minus < row.vi_plus &&
              (prev_row.vi_plus - prev_row.vi_minus < row.vi_plus - row.vi_minus : Bool)
          let is_bearish_vortex :=
            !(row.vi_minus < row.vi_plus) && row.vi_plus < row.vi_minus &&
              (prev_row.vi_minus - prev_row.vi_plus < row.vi_minus - row.vi_plus : Bool)
          if is_bullish_vortex && (row.ema < row.close : Bool) then some .BUY_CE
          else if is_bearish_vortex && (row.close < row.ema : Bool) then some .BUY_PE
          else none
    | _, _ => none

/-- `StrategyV30.calculate_pnl`. -/
def StrategyV30.calculate_pnl (s : StrategyV30) (entry_price exit_price : ℚ) :
    ℚ × ℚ :=
  let pnl_points := exit_price - entry_price
  (round2 pnl_points, round2 (pnl_points * s.LOT_SIZE))

/-! ## Position tracker (`archive/Phase-4/position_tracker.py`)

`open_positions` is a Python dict `{order_id: position_dict}`; dicts preserve
insertion order, so it is modelled as a list of `Position` records in
insertion order with unique `order_id` keys.  `uuid`-generated ids are
modelled by a fresh-id counter `next_id`. -/

/-- One open-position dict, field for field as built by `open_position`.
The `status` key is represented by which collection holds the record
(`open_positions` vs `closed_positions`). -/
structure Position where
  order_id : Nat
  side : Signal
  strike : Option ℚ
  entry_price : ℚ
  entry_time : Timestamp
  signal_time : Timestamp
  quantity : ℚ
  sl : ℚ
  initial_sl : ℚ
  tp1 : ℚ
  tp1_hit : Bool
  highest_price : ℚ
  current_price : ℚ
  unrealized_pnl_points : ℚ
  unrealized_pnl_inr : ℚ
deriving DecidableEq, Repr

/-- A closed position: the final record plus the exit fields
`close_position` adds. -/
structure ClosedPosition where
  pos : Position
  exit_price : ℚ
  exit_reason : ExitReason
  exit_time : Timestamp
  pnl_points : ℚ
  pnl_inr : ℚ
deriving DecidableEq, Repr

/-- `PositionTracker` state. -/
structure TrackerState where
  open_positions : List Position
  closed_positions : List ClosedPosition
  next_id : Nat
deriving DecidableEq, Repr

/-- `PositionTracker.__init__`. -/
def TrackerState.init : TrackerState :=
  { open_positions := [], closed_positions := [], next_id := 0 }

/-- `PositionTracker.open_position`: builds the position dict and inserts it
(at the end, in dict insertion order); returns the fresh order id. -/
def TrackerState.open_position (tr : TrackerState) (side : Signal)
    (strike : Option ℚ) (entry_price sl tp1 : ℚ)
    (entry_time signal_time : Timestamp) : TrackerState × Nat :=
  let order_id := tr.next_id
  let position : Position :=
    { order_id := order_id
      side := side
      strike := strike
      entry_price := entry_price
      entry_time := entry_time
      signal_time := signal_time
      quantity := 75
      sl := sl
      initial_sl := sl
      tp1 := tp1
      tp1_hit := false
      highest_price := entry_price
      current_price := entry_price
      unrealized_pnl_points := 0
      unrealized_pnl_inr := 0 }
  ({ tr with
      open_positions := tr.open_positions ++ [position]
      next_id := tr.next_id + 1 },
   order_id)

/-- `PositionTracker.get_position`: dict lookup by order id. -/
def TrackerState.get_position (tr : TrackerState) (order_id : Nat) :
    Option Position :=
  tr.open_positions.find? (fun p => p.order_id == order_id)

/-- `PositionTracker.get_open_position_count`. -/
def TrackerState.get_open_position_count (tr : TrackerState) : Nat :=
  tr.open_positions.length

/-- `PositionTracker.update_position`: sets `current_price`, extends
`highest_price`, recomputes unrealized P&L; a no-op when the id is absent. -/
def TrackerState.update_position (tr : TrackerState) (order_id : Nat)
    (current_price : ℚ) : TrackerState :=
  { tr with
    open_positions := tr.open_positions.map (fun p =>
      if p.order_id == order_id then
        let pnl_points := current_price - p.entry_price
        { p with
          current_price := current_price
          highest_price := max p.highest_price current_price
          unrealized_pnl_points := round2 pnl_points
          unrealized_pnl_inr := round2 (pnl_points * p.quantity) }
      else p) }

/-- `PositionTracker.check_tp1_hit`: edge-triggered — latches `tp1_hit` and
returns `true` exactly when the position exists, was not yet hit, and
`current_high >= tp1`. -/
def TrackerState.check_tp1_hit (tr : TrackerState) (order_id : Nat)
    (current_high : ℚ) : TrackerState × Bool :=
  match tr.get_position order_id with
  | none => (tr, false)
  | some position =>
    if !position.tp1_hit && (position.tp1 ≤ current_high : Bool) then
      ({ tr with
          open_positions := tr.open_positions.map (fun p =>
            if p.order_id == order_id then { p with tp1_hit := true } else p) },
       true)
    else (tr, false)

/-- `PositionTracker.update_trailing_sl`: unconditionally assigns the new
stop-loss (the source has no clamp against the old value). -/
def TrackerState.update_trailing_sl (tr : TrackerState) (order_id : Nat)
    (new_sl : ℚ) : TrackerState :=
  { tr with
    open_positions := tr.open_positions.map (fun p =>
      if p.order_id == order_id then { p with sl := new_sl } else p) }

/-- `PositionTracker.close_position`: pops the position from the open dict,
computes final P&L and appends the closed record; `none` when the id is
absent. -/
def TrackerState.close_position (tr : TrackerState) (order_id : Nat)
    (exit_price : ℚ) (exit_reason : ExitReason) (exit_time : Timestamp) :
    TrackerState × Option ClosedPosition :=
  match tr.get_position order_id with
  | none => (tr, none)
  | some position =>
    let pnl_points := exit_price - position.entry_price
    let closed : ClosedPosition :=
      { pos := position
        exit_price := exit_price
        exit_reason := exit_reason
        exit_time := exit_time
        pnl_points := round2 pnl_points
        pnl_inr := round2 (pnl_points * position.quantity) }
    ({ tr with
        open_positions := tr.open_positions.filter
          (fun p => !(p.order_id == order_id))
        closed_positions := tr.closed_positions ++ [closed] },
     some closed)

/-! ## Paper order manager (`TB DHAN API ALGO/Phase-4/paper_order_manager.py`)

The source stores the pending signal in two lockstep attributes
`pending_signal` / `pending_signal_time`; every write sets or clears both
together, so they are modelled as one `Option (Signal × Timestamp)`. -/

/-- `PaperOrderManager` state (the trade logger is a write-only sink and is
not modelled). -/
structure ManagerState where
  tracker : TrackerState
  pending_signal : Option (Signal × Timestamp)
deriving DecidableEq, Repr

/-- `PaperOrderManager.__init__`. -/
def ManagerState.init : ManagerState :=
  { tracker := TrackerState.init, pending_signal := none }

/-- `PaperOrderManager.on_signal_detected`: queues the signal for T+1
execution unless a position is already open or a pending signal exists. -/
def ManagerState.on_signal_detected (st : ManagerState) (signal : Signal)
    (signal_time : Timestamp) : ManagerState :=
  if 1 ≤ st.tracker.get_open_position_count then st
  else if st.pending_signal.isSome then st
  else { st with pending_signal := some (signal, signal_time) }

/-- `PaperOrderManager.execute_pending_signal`: executes the queued signal at
T+1 against the matching option side's candle open, or clears it when the
option data is missing/NaN.  Returns the new state and the order id
(`None` in the source becomes `none`). -/
def ManagerState.execute_pending_signal (s : StrategyV30) (st : ManagerState)
    (ce_data pe_data : Option OptionData) (current_time : Timestamp) :
    ManagerState × Option Nat :=
  match st.pending_signal with
  | none => (st, none)
  | some (signal, signal_time) =>
    -- Only execute on a strictly later candle (T+1), never on the signal candle.
    if current_time.ble signal_time then (st, none)
    else
      let option_data := match signal with
        | .BUY_CE => ce_data
        | .BUY_PE => pe_data
      match option_data with
      | none => ({ st with pending_signal := none }, none)
      | some od =>
        match od.open_price, od.atr with
        | some open_price, some option_atr =>
          let entry_price := open_price + 1/2
          let strike := od.strike_price
          let levels := s.calculate_entry_levels signal entry_price option_atr
          let (tracker1, order_id) := st.tracker.open_position signal strike
            entry_price levels.sl levels.tp1 current_time signal_time
          ({ tracker := tracker1, pending_signal := none }, some order_id)
        | _, _ => ({ st with pending_signal := none }, none)

/-- `PaperOrderManager._check_exit_conditions`: stop-loss, then trend
reversal (armed only after TP1), then end-of-day; first match wins. -/
def ManagerState.check_exit_conditions (s : StrategyV30) (position : Position)
    (current_price : ℚ) (nifty_indicators : NiftyInd)
    (current_candle_time : Timestamp) : Option (ExitReason × ℚ) :=
  if s.check_sl_hit position.side current_price position.sl then
    some (.slHit, position.sl)
  else if s.check_macd_ema_exit position.side position.tp1_hit
      nifty_indicators.close nifty_indicators.ema
      nifty_indicators.macd_hist then
    some (.macdEmaExit, current_price)
  else if s.check_eod_exit current_candle_time.minutes then
    some (.eodExit, current_price)
  else none

/-- The price-tracking half of one `update_positions` loop iteration:
`update_position` (price, highest, P&L), then the edge-triggered
`check_tp1_hit`, then — on TP1 — the immediate profit lock
`update_trailing_sl(order_id, round(entry_price + 13.0, 2))`. -/
def trackPosition (current_price current_high : ℚ) (tr : TrackerState)
    (position : Position) : TrackerState :=
  let tr1 := tr.update_position position.order_id current_price
  let (tr2, hit) := tr1.check_tp1_hit position.order_id current_high
  if hit then
    tr2.update_trailing_sl position.order_id (round2 (position.entry_price + 13))
  else tr2

/-- The exit half of one `update_positions` loop iteration:
`_check_exit_conditions` on the live (re-fetched) position record, and
`close_position` when an exit fires; returns the closed order id if any. -/
def exitPosition (s : StrategyV30) (current_price : ℚ)
    (nifty_indicators : NiftyInd) (current_candle_time : Timestamp)
    (tr : TrackerState) (order_id : Nat) : TrackerState × Option Nat :=
  match tr.get_position order_id with
  | none => (tr, none)  -- unreachable: the id stays open through its own iteration
  | some live =>
    match ManagerState.check_exit_conditions s live current_price
        nifty_indicators current_candle_time with
    | none => (tr, none)
    | some (exit_reason, exit_price) =>
      let (tr4, closed) := tr.close_position order_id exit_price
        exit_reason current_candle_time
      match closed with
      | some _ => (tr4, some order_id)
      | none => (tr4, none)

/-- The body of the `for position in get_all_open_positions()` loop of
`PaperOrderManager.update_positions`, acting on the accumulated tracker state
and closed-order list.  The source mutates the live position dict, so fields
read after a mutation (`sl`, `tp1_hit`) are re-fetched from the tracker. -/
def ManagerState.updateLoopStep (s : StrategyV30)
    (ce_price pe_price ce_high pe_high : ℚ) (nifty_indicators : NiftyInd)
    (current_candle_time : Timestamp) (acc : TrackerState × List Nat)
    (position : Position) : TrackerState × List Nat :=
  -- Skip all exit checks on the entry candle.
  if current_candle_time = position.entry_time then acc
  else
    let current_price := match position.side with
      | .BUY_CE => ce_price
      | .BUY_PE => pe_price
    let current_high := match position.side with
      | .BUY_CE => ce_high
      | .BUY_PE => pe_high
    let tr3 := trackPosition current_price current_high acc.1 position
    let (tr4, closed_id) := exitPosition s current_price nifty_indicators
      current_candle_time tr3 position.order_id
    (tr4, acc.2 ++ closed_id.toList)

/-- `PaperOrderManager.update_positions`: first executes any pending T+1
signal, then updates every open position (price tracking, TP1 latch and
profit lock, exit conditions), returning the list of closed order ids. -/
def ManagerState.update_positions (s : StrategyV30) (st : ManagerState)
    (ce_price pe_price ce_high pe_high : ℚ)
    (ce_data pe_data : Option OptionData) (nifty_indicators : NiftyInd)
    (current_candle_time : Timestamp) : ManagerState × List Nat :=
  let st1 := (st.execute_pending_signal s ce_data pe_data current_candle_time).1
  let snapshot := st1.tracker.open_positions
  let (trFinal, closed_orders) := snapshot.foldl
    (ManagerState.updateLoopStep s ce_price pe_price ce_high pe_high
      nifty_indicators current_candle_time)
    (st1.tracker, [])
  ({ st1 with tracker := trFinal }, closed_orders)

/-- `PaperOrderManager.force_close_all_positions` (EOD shutdown): closes every
open position at the current side price with reason "Force EOD Close". -/
def ManagerState.force_close_all_positions (st : ManagerState)
    (ce_price pe_price : ℚ) (now : Timestamp) : ManagerState :=
  let snapshot := st.tracker.open_positions
  let trFinal := snapshot.foldl (fun tr position =>
    let exit_price := match position.side with
      | .BUY_CE => ce_price
      | .BUY_PE => pe_price
    (tr.close_position position.order_id exit_price .forceEodClose now).1)
    st.tracker
  { st with tracker := trFinal }

/-! ## Reachable manager states

The manager's public entry points, invoked with arbitrary arguments in any
order.  This over-approximates the orchestrator's actual call pattern, so an
invariant proved over `Reachable` holds a fortiori for the live system. -/

/-- One public-method call on the paper order manager. -/
inductive ManagerStep (s : StrategyV30) : ManagerState → ManagerState → Prop where
  | signal (st : ManagerState) (sig : Signal) (t : Timestamp) :
      ManagerStep s st (st.on_signal_detected sig t)
  | update (st : ManagerState) (ce_price pe_price ce_high pe_high : ℚ)
      (ce_data pe_data : Option OptionData) (nifty : NiftyInd) (t : Timestamp) :
      ManagerStep s st
        (st.update_positions s ce_price pe_price ce_high pe_high ce_data
          pe_data nifty t).1
  | force (st : ManagerState) (ce_price pe_price : ℚ) (t : Timestamp) :
      ManagerStep s st (st.force_close_all_positions ce_price pe_price t)

/-- States reachable from the freshly initialized manager. -/
inductive ReachableManager (s : StrategyV30) : ManagerState → Prop where
  | init : ReachableManager s ManagerState.init
  | step {st st' : ManagerState} : ReachableManager s st →
      ManagerStep s st st' → ReachableManager s st'

/-! ## Indicator calculator

Two source variants are embedded:
* `Algo Baddu Trading API/Phase-3/indicator_calculator.py`
  (`calculate_nifty_indicators`): 50-candle stability gate, then the
  `max(ema_period, vi_period)` data gate, then the 13-candles-today gate.
* `TB DHAN API ALGO/Phase-4/indicator_calculator.py`
  (`calculate_nifty_indicators`): only the `max(ema_period, vi_period)` gate.

The numeric indicator transforms (EMA, MACD histogram, Vortex) are embedded
over `ℚ`; `none` models a NaN cell produced by insufficient rolling history.
The Phase-3 Choppiness value is the one indicator not carried in the
snapshot: its formula takes a base-10 logarithm, which has no exact rational
embedding, and no claim reads it — the success/failure gating that the claims
are about never depends on it. -/

/-- One OHLCV candle as buffered by `IndicatorCalculator.add_candle`. -/
structure Candle where
  timestamp : Timestamp
  open_price : ℚ
  high : ℚ
  low : ℚ
  close : ℚ
  volume : ℚ
deriving DecidableEq, Repr

/-- `series.ewm(span=period, adjust=False).mean()` tail: each output is
`α*x + (1-α)*prev` with `α = 2/(span+1)`. -/
def ewmAux (α : ℚ) (prev : ℚ) : List ℚ → List ℚ
  | [] => []
  | x :: xs =>
    let e := α * x + (1 - α) * prev
    e :: ewmAux α e xs

/-- `IndicatorCalculator.EMA(series, period)`. -/
def ema (period : Nat) (xs : List ℚ) : List ℚ :=
  match xs with
  | [] => []
  | x :: rest => x :: ewmAux (2 / (period + 1 : ℚ)) x rest

/-- `IndicatorCalculator.MACD(series)` histogram column
(`macd - ema(macd, 9)` with `macd = ema12 - ema26`). -/
def macdHist (closes : List ℚ) : List ℚ :=
  let macd := List.zipWith (· - ·) (ema 12 closes) (ema 26 closes)
  List.zipWith (· - ·) macd (ema 9 macd)

/-- True range series: `max(high-low, |high-prev_close|, |low-prev_close|)`,
with the first row reducing to `high-low` (the NaN shifted terms are skipped
by the source's `concat(...).max(axis=1)`). -/
def trueRangeAux (prev_close : Option ℚ) : List Candle → List ℚ
  | [] => []
  | c :: cs =>
    let tr := match prev_close with
      | none => c.high - c.low
      | some pc => max (c.high - c.low) (max (abs (c.high - pc)) (abs (c.low - pc)))
    tr :: trueRangeAux (some c.close) cs

/-- `|high - low.shift(1)|` series (`none` = the NaN first row). -/
def vmPlusAux (prev_low : Option ℚ) : List Candle → List (Option ℚ)
  | [] => []
  | c :: cs => (prev_low.map (fun pl => abs (c.high - pl))) :: vmPlusAux (some c.low) cs

/-- `|low - high.shift(1)|` series (`none` = the NaN first row). -/
def vmMinusAux (prev_high : Option ℚ) : List Candle → List (Option ℚ)
  | [] => []
  | c :: cs => (prev_high.map (fun ph => abs (c.low - ph))) :: vmMinusAux (some c.high) cs

/-- Sum of an all-present window; `none` as soon as any entry is NaN
(pandas `rolling(n).sum()` propagates NaN through the window). -/
def osum (xs : List (Option ℚ)) : Option ℚ :=
  xs.foldl (fun acc x => do pure ((← acc) + (← x))) (some 0)

/-- `series.rolling(n).sum()`: `none` for the first `n-1` rows and for any
window containing a NaN. -/
def rollingSum (n : Nat) (xs : List (Option ℚ)) : List (Option ℚ) :=
  (List.range xs.length).map (fun i =>
    if i + 1 < n then none else osum ((xs.drop (i + 1 - n)).take n))

/-- `IndicatorCalculator.Vortex` (the Phase-3 manual formula):
`vi± = rolling_sum(vm±, p) / rolling_sum(true_range, p)`.  A zero
true-range sum (NaN/inf in pandas) is `none`. -/
def vortex (period : Nat) (buf : List Candle) :
    List (Option ℚ) × List (Option ℚ) :=
  let sum_tr := rollingSum period ((trueRangeAux none buf).map some)
  let sum_vm_plus := rollingSum period (vmPlusAux none buf)
  let sum_vm_minus := rollingSum period (vmMinusAux none buf)
  let divide := fun (v t : Option ℚ) => do
    let tv ← t
    if tv = 0 then none else pure ((← v) / tv)
  (List.zipWith divide sum_vm_plus sum_tr,
   List.zipWith divide sum_vm_minus sum_tr)

/-- The latest NIFTY indicator snapshot (`self.nifty_indicators`). -/
structure NiftySnapshot where
  close : ℚ
  ema_val : ℚ
  vi_plus : Option ℚ
  vi_minus : Option ℚ
  macd_hist : ℚ
  timestamp : Timestamp
deriving DecidableEq, Repr

/-- The snapshot taken from the last dataframe row (`df.iloc[-1]`) on a
successful `calculate_nifty_indicators` run.  Only called on nonempty
buffers; the `getD` defaults are unreachable there. -/
def computeNiftySnapshot (ema_period vi_period : Nat) (buf : List Candle) :
    NiftySnapshot :=
  let closes := buf.map Candle.close
  let (vi_plus, vi_minus) := vortex vi_period buf
  { close := closes.getLast?.getD 0
    ema_val := (ema ema_period closes).getLast?.getD 0
    vi_plus := (vi_plus.getLast?).getD none
    vi_minus := (vi_minus.getLast?).getD none
    macd_hist := (macdHist closes).getLast?.getD 0
    timestamp := ((buf.map Candle.timestamp).getLast?).getD ⟨0, 0⟩ }

/-- Calculator state: the rolling NIFTY candle buffer and the latest stored
snapshot (`none` until the first successful computation). -/
structure CalcState where
  nifty_buffer : List Candle
  nifty_indicators : Option NiftySnapshot
deriving DecidableEq, Repr

/-- Number of buffered candles carrying the same trading date as the latest
candle (the Phase-3 daily-candle-count gate's `today_candles`). -/
def CalcState.todayCount (st : CalcState) : Nat :=
  match st.nifty_buffer.getLast? with
  | none => 0
  | some lastc =>
    st.nifty_buffer.countP (fun c => c.timestamp.day == lastc.timestamp.day)

/-- Phase-3 `calculate_nifty_indicators`: the 50-candle stability gate, the
`max(ema_period, vi_period)` data gate, and the 13-candles-today gate, in
that order; on success stores a fresh snapshot and returns `true`. -/
def calculateNiftyIndicatorsP3 (ema_period vi_period : Nat) (st : CalcState) :
    CalcState × Bool :=
  if st.nifty_buffer.length < 50 then (st, false)
  else if st.nifty_buffer.length < max ema_period vi_period then (st, false)
  else
    match st.nifty_buffer.getLast? with
    | none => (st, false)  -- unreachable: the buffer holds at least 50 candles
    | some _ =>
      if st.todayCount < 13 then (st, false)
      else
        ({ st with
            nifty_indicators :=
              some (computeNiftySnapshot ema_period vi_period st.nifty_buffer) },
         true)

/-- TB DHAN Phase-4 `calculate_nifty_indicators`: only the
`max(ema_period, vi_period)` warm-up gate — there is no 50-candle stability
gate and no daily-candle gate in this variant. -/
def calculateNiftyIndicatorsP4 (ema_period vi_period : Nat) (st : CalcState) :
    CalcState × Bool :=
  if st.nifty_buffer.length < max ema_period vi_period then (st, false)
  else
    ({ st with
        nifty_indicators :=
          some (computeNiftySnapshot ema_period vi_period st.nifty_buffer) },
     true)

/-! ## Orchestrators (`live_trader_main.py` variants)

Candle ingestion and the indicator recomputation that precede the scan are
abstracted: the resulting NIFTY snapshot is an input, and the value the
`LiveSignalScanner` would return for this candle is the `scan` parameter
(the scanner reads only indicator state, which position updates never
touch, so its result is independent of the steps modelled here). -/

/-- Orchestrator state: the paper order manager plus the `last_signal`
dashboard field (`"WAITING..."` is `none`). -/
structure OrchState where
  manager : ManagerState
  last_signal : Option Signal
deriving DecidableEq, Repr

/-- `Algo Baddu API/Phase-4/live_trader_main.py::on_candle_closed`:
STEP 2 updates positions first (executing any pending T+1 entry and
evaluating exits), STEP 3 consults the scanner only when flat, idle and
nothing closed this candle, STEP 4 queues a fired signal for T+1.
`ce_data` / `pe_data` are the full candle dicts the wrapper builds;
`ce_price = ce_data['close']`, `ce_high = ce_data['high']`, and the candle
time and signal time are both `nifty_indicators['timestamp']`. -/
def onCandleClosedAB (s : StrategyV30) (st : OrchState)
    (ce_data pe_data : OptionData) (nifty_indicators : NiftyInd)
    (scan : Option Signal) : OrchState :=
  let (m1, closed_orders) := st.manager.update_positions s
    ce_data.close pe_data.close ce_data.high pe_data.high
    (some ce_data) (some pe_data) nifty_indicators nifty_indicators.timestamp
  let signal :=
    if m1.tracker.get_open_position_count = 0 ∧ m1.pending_signal = none ∧
        closed_orders = [] then scan
    else none
  let m2 := match signal with
    | some sig => m1.on_signal_detected sig nifty_indicators.timestamp
    | none => m1
  { manager := m2, last_signal := signal }

/-- A Python exception raised inside `on_candle_closed`. -/
inductive PyError where
  | attributeError  -- PaperOrderManager has no attribute create_paper_order
  | typeError       -- update_positions missing arguments ce_data and pe_data
deriving DecidableEq, Repr

/-- Result of a TB DHAN candle-close cycle: the state as left behind plus the
exception (if any) that aborted the cycle. -/
structure TBResult where
  error : Option PyError
  state : OrchState
deriving DecidableEq, Repr

/-- `TB DHAN API ALGO/Phase-4/live_trader_main.py::on_candle_closed`: this
variant consults the signal scanner FIRST, unconditionally — before any
position update and with no flat/idle/cooldown gate.  It then aborts on
every candle: with a fired signal, `handle_signal` calls
`create_paper_order`, which this directory's `PaperOrderManager` does not
define (`AttributeError`); otherwise its `update_positions` wrapper omits
the required `ce_data`/`pe_data` arguments (`TypeError`).  Either way the
pending T+1 signal is never executed and no exits are evaluated. -/
def onCandleClosedTB (st : OrchState) (scan : Option Signal) : TBResult :=
  let st1 := { st with last_signal := scan }
  match scan with
  | some _ => { error := some .attributeError, state := st1 }
  | none => { error := some .typeError, state := st1 }

/-! ## Auxiliary definitions for the statements -/

/-- The open positions carrying a given order id (a dict holds at most one). -/
def filterById (i : Nat) (xs : List Position) : List Position :=
  xs.filter (fun q => q.order_id == i)

/-- Number of pending signals held by the manager (0 or 1 structurally: the
source stores at most one in `self.pending_signal`). -/
def ManagerState.pendingCount (st : ManagerState) : Nat :=
  if st.pending_signal.isSome then 1 else 0

/-- The source's option-data validation,
`not option_data or pd.isna(option_data.get('open')) or pd.isna(option_data.get('atr'))`. -/
def optionDataInvalid (od : Option OptionData) : Bool :=
  match od with
  | none => true
  | some od => od.open_price.isNone || od.atr.isNone

/-- The per-id trailing invariant used for stop-loss monotonicity: every open
position with order id `i` has `tp1_hit` latched and stop-loss `v`. -/
def slLocked (i : Nat) (v : ℚ) (xs : List Position) : Prop :=
  ∀ q ∈ xs, q.order_id = i → q.sl = v ∧ q.tp1_hit = true

instance (i : Nat) (v : ℚ) (xs : List Position) : Decidable (slLocked i v xs) := by
  unfold slLocked; infer_instance

/-! ## Concrete example data (used by witnesses and counterexamples) -/

/-- A CE option candle with valid open and ATR (open 120, ATR 4 — the spec's
worked example). -/
def exCE : OptionData :=
  { open_price := some 120, close := 121, high := 122, low := 119
    atr := some 4, strike_price := some 25000 }

/-- A PE option candle with valid data. -/
def exPE : OptionData :=
  { open_price := some 80, close := 81, high := 82, low := 79
    atr := some 3, strike_price := some 25000 }

/-- A PE option candle whose ATR is NaN. -/
def exPEBad : OptionData :=
  { open_price := some 80, close := 81, high := 82, low := 79
    atr := none, strike_price := some 25000 }

/-- A NIFTY snapshot at 10:05 that triggers no trend-reversal exit for a CE
position. -/
def exNifty : NiftyInd :=
  { close := 25000, ema := 24900, macd_hist := 1, timestamp := ⟨0, 605⟩ }

/-- Manager with a BUY_CE signal queued at 10:00 on day 0. -/
def exStPending : ManagerState :=
  ManagerState.init.on_signal_detected .BUY_CE ⟨0, 600⟩

/-- Manager after the queued signal fills at 10:05 (T+1): one open CE
position, entry 120.5, SL 112.5, TP1 130.5. -/
def exStOpen : ManagerState :=
  (exStPending.execute_pending_signal defaultStrategy (some exCE) (some exPE)
    ⟨0, 605⟩).1

/-- Manager after the 10:10 candle rallies through TP1 (high 141): TP1 is
latched and the stop-loss is locked to entry + 13 = 133.5. -/
def exStTp1 : ManagerState :=
  (exStOpen.update_positions defaultStrategy 140 80 141 81 none none
    { exNifty with timestamp := ⟨0, 610⟩ } ⟨0, 610⟩).1

/-- One further quiet candle at 10:15 on the TP1-latched position. -/
def exStTp1Next : ManagerState :=
  (exStTp1.update_positions defaultStrategy 140 80 140 81 none none
    { exNifty with timestamp := ⟨0, 615⟩ } ⟨0, 615⟩).1

/-- The (unique) open position of `exStOpen`. -/
def exOpenPos : Position :=
  { order_id := 0, side := .BUY_CE, strike := some 25000
    entry_price := 241/2, entry_time := ⟨0, 605⟩, signal_time := ⟨0, 600⟩
    quantity := 75, sl := 225/2, initial_sl := 225/2, tp1 := 261/2
    tp1_hit := false, highest_price := 241/2, current_price := 241/2
    unrealized_pnl_points := 0, unrealized_pnl_inr := 0 }

/-- The open position of `exStTp1Next` (TP1 latched, SL locked at 133.5). -/
def exTp1Pos : Position :=
  { order_id := 0, side := .BUY_CE, strike := some 25000
    entry_price := 241/2, entry_time := ⟨0, 605⟩, signal_time := ⟨0, 600⟩
    quantity := 75, sl := 267/2, initial_sl := 225/2, tp1 := 261/2
    tp1_hit := true, highest_price := 140, current_price := 140
    unrealized_pnl_points := 39/2, unrealized_pnl_inr := 2925/2 }

/-- A TP1-latched position whose stop-loss was (hypothetically) set to 10. -/
def lockedPos : Position := { exTp1Pos with sl := 10 }

/-- A tracker holding one TP1-latched position with SL 10. -/
def exTrLocked : TrackerState :=
  { open_positions := [lockedPos], closed_positions := [], next_id := 1 }

/-- The manager owning `exTrLocked`, with no pending signal. -/
def exMgrLocked : ManagerState :=
  { tracker := exTrLocked, pending_signal := none }

/-- A manager holding the freshly opened `exOpenPos` (entry 10:05), no
pending signal. -/
def exMgrOpen : ManagerState :=
  { tracker := { open_positions := [exOpenPos], closed_positions := []
                 next_id := 1 }
    pending_signal := none }

/-- A NIFTY snapshot at 10:15 that triggers no trend-reversal exit for a CE
position. -/
def exNifty615 : NiftyInd :=
  { close := 25000, ema := 24900, macd_hist := 1, timestamp := ⟨0, 615⟩ }

/-- A 5-minute candle on trading day `d`, `k` steps after 09:15, with simple
valid OHLC values. -/
def mkCandle (d k : Nat) : Candle :=
  { timestamp := ⟨d, 555 + 5 * k⟩, open_price := 100, high := 101, low := 100
    close := 100, volume := 1 }

/-- Calculator buffer holding exactly 49 valid candles of one session. -/
def exSt49 : CalcState :=
  { nifty_buffer := (List.range 49).map (mkCandle 0), nifty_indicators := none }

/-- Calculator buffer holding exactly 50 valid candles of one session. -/
def exSt50 : CalcState :=
  { nifty_buffer := (List.range 50).map (mkCandle 0), nifty_indicators := none }

/-- Calculator buffer holding 50 valid candles, 49 from day 0 and a single
one from day 1 (a fresh session after abundant warm-up history). -/
def exStSplit : CalcState :=
  { nifty_buffer := (List.range 49).map (mkCandle 0) ++ [mkCandle 1 0]
    nifty_indicators := none }

/-- Orchestrator state with a pending BUY_CE signal queued at 10:00 awaiting
its T+1 fill. -/
def exOrchPending : OrchState :=
  { manager := exStPending, last_signal := none }

/-! ## Helper lemmas -/

set_option maxRecDepth 200000

/-- The lexicographic timestamp order is total: `¬(a <= b)` is `b < a`. -/
theorem Timestamp.ble_eq_false_iff (a b : Timestamp) :
    a.ble b = false ↔ b.blt a = true := by
  simp only [Timestamp.ble, Timestamp.blt, Bool.or_eq_false_iff,
    Bool.or_eq_true, Bool.and_eq_false_iff, Bool.and_eq_true,
    decide_eq_false_iff_not, decide_eq_true_eq, beq_iff_eq, beq_eq_false_iff_ne,
    ne_eq, not_lt, not_le]
  omega

/-! ## C1 — T+1 ordering of pending-signal execution -/

/-- C1: for a pending signal queued at time `T`, every call to
`execute_pending_signal` with current candle time `<= T` returns `None` and
leaves the whole manager state (pending signal and its signal time included)
untouched, and a call can only return an order id — the only way a position
is opened — when its candle time is strictly greater than `T`. -/
theorem execute_pending_t1_ordering (s : StrategyV30) (st : ManagerState)
    (sig : Signal) (T : Timestamp)
    (hp : st.pending_signal = some (sig, T)) :
    (∀ ce_data pe_data t, t.ble T = true →
      st.execute_pending_signal s ce_data pe_data t = (st, none)) ∧
    (∀ ce_data pe_data t oid,
      (st.execute_pending_signal s ce_data pe_data t).2 = some oid →
      T.blt t = true) := by
  constructor
  · intro ce_data pe_data t hble
    unfold ManagerState.execute_pending_signal
    rw [hp]
    simp [hble]
  · intro ce_data pe_data t oid h
    rcases hble : t.ble T with _ | _
    · exact (Timestamp.ble_eq_false_iff t T).mp hble
    · unfold ManagerState.execute_pending_signal at h
      rw [hp] at h
      simp [hble] at h

/-- C1 witness: with BUY_CE queued at 10:00, a 10:00 call returns `None` and
changes nothing, and the 10:05 call that does fill satisfies 10:00 < 10:05. -/
theorem execute_pending_t1_ordering_witness :
    (exStPending.execute_pending_signal defaultStrategy (some exCE) (some exPE)
      ⟨0, 600⟩ = (exStPending, none)) ∧
    Timestamp.blt ⟨0, 600⟩ ⟨0, 605⟩ = true := by
  have h := execute_pending_t1_ordering defaultStrategy exStPending .BUY_CE
    ⟨0, 600⟩ (by decide)
  exact ⟨h.1 (some exCE) (some exPE) ⟨0, 600⟩ (by decide),
    h.2 (some exCE) (some exPE) ⟨0, 605⟩ 0 (by decide)⟩

/-! ## C9 — missing / NaN option data at T+1 fill time -/

/-- C9: if at T+1 fill time the selected option side's candle data is absent
or its open price or ATR is NaN, `execute_pending_signal` returns `None`,
opens no position, and clears the pending signal, so every later call is a
no-op (the signal is never retried).  The embedding is a total function, so
the call returns normally rather than raising. -/
theorem execute_pending_missing_data (s : StrategyV30) (st : ManagerState)
    (sig : Signal) (T t : Timestamp) (ce_data pe_data : Option OptionData)
    (hp : st.pending_signal = some (sig, T))
    (ht : t.ble T = false)
    (hbad : optionDataInvalid
      (match sig with | .BUY_CE => ce_data | .BUY_PE => pe_data) = true) :
    st.execute_pending_signal s ce_data pe_data t =
      ({ st with pending_signal := none }, none) ∧
    ∀ ce' pe' t',
      ManagerState.execute_pending_signal s { st with pending_signal := none }
        ce' pe' t' = ({ st with pending_signal := none }, none) := by
  constructor
  · unfold ManagerState.execute_pending_signal
    rw [hp]
    simp only [ht, Bool.false_eq_true, if_false]
    cases sig with
    | BUY_CE =>
      simp only at hbad ⊢
      match ce_data with
      | none => simp
      | some od =>
        cases hx : od.open_price <;> cases hy : od.atr <;>
          simp_all [optionDataInvalid]
    | BUY_PE =>
      simp only at hbad ⊢
      match pe_data with
      | none => simp
      | some od =>
        cases hx : od.open_price <;> cases hy : od.atr <;>
          simp_all [optionDataInvalid]
  · intro ce' pe' t'
    unfold ManagerState.execute_pending_signal
    simp

/-- C9 witness: BUY_PE pending at 10:00, PE candle at 10:05 has NaN ATR —
the fill is skipped, the pending signal is dropped, and a retry at 10:10
with good data is still a no-op. -/
theorem execute_pending_missing_data_witness :
    ((ManagerState.init.on_signal_detected .BUY_PE ⟨0, 600⟩
        : ManagerState).execute_pending_signal defaultStrategy (some exCE)
        (some exPEBad) ⟨0, 605⟩ =
      (ManagerState.init, none)) ∧
    (ManagerState.init.execute_pending_signal defaultStrategy (some exCE)
        (some exPE) ⟨0, 610⟩ = (ManagerState.init, none)) := by
  have h := execute_pending_missing_data defaultStrategy
    (ManagerState.init.on_signal_detected .BUY_PE ⟨0, 600⟩) .BUY_PE
    ⟨0, 600⟩ ⟨0, 605⟩ (some exCE) (some exPEBad)
    (by decide) (by decide) (by decide)
  constructor
  · rw [h.1]; decide
  · have h2 := h.2 (some exCE) (some exPE) ⟨0, 610⟩
    rw [show ({ (ManagerState.init.on_signal_detected .BUY_PE ⟨0, 600⟩) with
        pending_signal := none } : ManagerState) = ManagerState.init from by decide] at h2
    exact h2

/-! ## C3 — T+1 fill prices and levels -/

/-- C3: when the T+1 executor fills a pending signal against the matching
option side's candle with open `O` and ATR `a` (under the default
`StrategyV30` parameters: `SL_MULTIPLIER = 2.0`, `MAX_SL_POINTS = 26.67`,
`TP1_POINTS = 10`), the opened position has
`entry_price = O + 0.5`, `sl = round(entry - min(2*a, 26.67), 2)`,
`tp1 = entry + 10`, and the pending signal is cleared. -/
theorem execute_pending_fill (st : ManagerState) (sig : Signal)
    (T t : Timestamp) (ce_data pe_data : Option OptionData) (od : OptionData)
    (O a : ℚ)
    (hp : st.pending_signal = some (sig, T))
    (ht : t.ble T = false)
    (hod : (match sig with | .BUY_CE => ce_data | .BUY_PE => pe_data) = some od)
    (hO : od.open_price = some O) (ha : od.atr = some a) :
    st.execute_pending_signal defaultStrategy ce_data pe_data t =
      ({ tracker := { st.tracker with
            open_positions := st.tracker.open_positions ++
              [{ order_id := st.tracker.next_id, side := sig
                 strike := od.strike_price
                 entry_price := O + 1/2, entry_time := t, signal_time := T
                 quantity := 75
                 sl := round2 (O + 1/2 - min (2 * a) (2667/100))
                 initial_sl := round2 (O + 1/2 - min (2 * a) (2667/100))
                 tp1 := O + 1/2 + 10, tp1_hit := false
                 highest_price := O + 1/2, current_price := O + 1/2
                 unrealized_pnl_points := 0, unrealized_pnl_inr := 0 }]
            next_id := st.tracker.next_id + 1 }
         pending_signal := none },
       some st.tracker.next_id) := by
  unfold ManagerState.execute_pending_signal
  rw [hp]
  simp only [ht, Bool.false_eq_true, if_false]
  cases sig <;>
    · simp only at hod ⊢
      simp only [hod, hO, ha]
      simp [TrackerState.open_position, StrategyV30.calculate_entry_levels,
        defaultStrategy]

/-- C3 witness: the spec's worked example — BUY_CE queued at 10:00 fills at
10:05 against CE open 120.0 and ATR 4.0, giving entry 120.5,
SL `round(120.5 - min(8.0, 26.67), 2) = 112.5`, TP1 130.5, pending cleared. -/
theorem execute_pending_fill_witness :
    exStOpen.tracker.open_positions = [exOpenPos] ∧
    exStOpen.pending_signal = none ∧
    exOpenPos.entry_price = 241/2 ∧
    exOpenPos.sl = round2 (241/2 - min 8 (2667/100)) ∧
    exOpenPos.sl = 225/2 ∧ exOpenPos.tp1 = 261/2 := by
  have h := execute_pending_fill exStPending .BUY_CE ⟨0, 600⟩ ⟨0, 605⟩
    (some exCE) (some exPE) exCE 120 4 (by decide) (by decide) (by decide)
    (by decide) (by decide)
  refine ⟨?_, ?_, by norm_num [exOpenPos], ?_,
    by norm_num [exOpenPos, round2], by norm_num [exOpenPos]⟩
  · show (exStPending.execute_pending_signal defaultStrategy (some exCE)
      (some exPE) ⟨0, 605⟩).1.tracker.open_positions = [exOpenPos]
    rw [h]
    simp only [exStPending, ManagerState.init, ManagerState.on_signal_detected,
      TrackerState.init, TrackerState.get_open_position_count]
    norm_num [exOpenPos, round2, Position.mk.injEq, exCE]
  · show (exStPending.execute_pending_signal defaultStrategy (some exCE)
      (some exPE) ⟨0, 605⟩).1.pending_signal = none
    rw [h]
  · norm_num [exOpenPos, round2]

/-! ## C2 — at most one open position, at most one pending signal -/

theorem length_update_position (tr : TrackerState) (i : Nat) (c : ℚ) :
    (tr.update_position i c).open_positions.length =
      tr.open_positions.length := by
  simp [TrackerState.update_position]

theorem length_check_tp1_hit (tr : TrackerState) (i : Nat) (h : ℚ) :
    (tr.check_tp1_hit i h).1.open_positions.length =
      tr.open_positions.length := by
  unfold TrackerState.check_tp1_hit
  rcases tr.get_position i with _ | p
  · rfl
  · simp only
    split <;> simp

theorem length_update_trailing_sl (tr : TrackerState) (i : Nat) (v : ℚ) :
    (tr.update_trailing_sl i v).open_positions.length =
      tr.open_positions.length := by
  simp [TrackerState.update_trailing_sl]

theorem length_close_position_le (tr : TrackerState) (i : Nat) (x : ℚ)
    (r : ExitReason) (t : Timestamp) :
    (tr.close_position i x r t).1.open_positions.length ≤
      tr.open_positions.length := by
  unfold TrackerState.close_position
  rcases tr.get_position i with _ | p <;> simp only
  · exact le_rfl
  · simpa using List.length_filter_le _ _

theorem length_trackPosition (cp ch : ℚ) (tr : TrackerState) (p : Position) :
    (trackPosition cp ch tr p).open_positions.length =
      tr.open_positions.length := by
  unfold trackPosition
  rcases h2 : (tr.update_position p.order_id cp).check_tp1_hit p.order_id ch
    with ⟨tr2, hit⟩
  have hlen2 : tr2.open_positions.length = tr.open_positions.length := by
    have h := length_check_tp1_hit (tr.update_position p.order_id cp)
      p.order_id ch
    rw [h2] at h
    simpa [length_update_position] using h
  simp only
  split <;> simp [h2, length_update_trailing_sl, hlen2]

theorem length_exitPosition_le (s : StrategyV30) (cp : ℚ) (ni : NiftyInd)
    (t : Timestamp) (tr : TrackerState) (i : Nat) :
    (exitPosition s cp ni t tr i).1.open_positions.length ≤
      tr.open_positions.length := by
  unfold exitPosition
  rcases tr.get_position i with _ | live
  · exact le_rfl
  · simp only
    rcases ManagerState.check_exit_conditions s live cp ni t with _ | ⟨er, ex⟩
    · exact le_rfl
    · simp only
      rcases h6 : tr.close_position i ex er t with ⟨tr4, copt⟩
      have hc := length_close_position_le tr i ex er t
      rw [h6] at hc
      rcases copt with _ | c0 <;> simpa using hc

theorem length_updateLoopStep_le (s : StrategyV30)
    (cp pp ch ph : ℚ) (ni : NiftyInd) (t : Timestamp)
    (acc : TrackerState × List Nat) (p : Position) :
    (ManagerState.updateLoopStep s cp pp ch ph ni t acc p).1.open_positions.length ≤
      acc.1.open_positions.length := by
  unfold ManagerState.updateLoopStep
  split
  · exact le_rfl
  · rcases h4 : exitPosition s (match p.side with | .BUY_CE => cp | .BUY_PE => pp)
        ni t (trackPosition (match p.side with | .BUY_CE => cp | .BUY_PE => pp)
          (match p.side with | .BUY_CE => ch | .BUY_PE => ph) acc.1 p)
        p.order_id with ⟨tr4, cid⟩
    have he := length_exitPosition_le s
      (match p.side with | .BUY_CE => cp | .BUY_PE => pp) ni t
      (trackPosition (match p.side with | .BUY_CE => cp | .BUY_PE => pp)
        (match p.side with | .BUY_CE => ch | .BUY_PE => ph) acc.1 p) p.order_id
    rw [h4] at he
    have ht := length_trackPosition
      (match p.side with | .BUY_CE => cp | .BUY_PE => pp)
      (match p.side with | .BUY_CE => ch | .BUY_PE => ph) acc.1 p
    simp only [h4]
    simp only at he
    omega

theorem length_updateLoop_le (s : StrategyV30) (cp pp ch ph : ℚ)
    (ni : NiftyInd) (t : Timestamp) (snap : List Position)
    (tr : TrackerState) (cl : List Nat) :
    ((snap.foldl (ManagerState.updateLoopStep s cp pp ch ph ni t)
      (tr, cl)).1.open_positions.length) ≤ tr.open_positions.length := by
  have key : ∀ (snap : List Position) (acc : TrackerState × List Nat),
      ((snap.foldl (ManagerState.updateLoopStep s cp pp ch ph ni t)
        acc).1.open_positions.length) ≤ acc.1.open_positions.length := by
    intro snap
    induction snap with
    | nil => intro acc; exact le_rfl
    | cons p rest ih =>
      intro acc
      exact le_trans (ih _) (length_updateLoopStep_le s cp pp ch ph ni t acc p)
  exact key snap (tr, cl)

/-- Case analysis of `execute_pending_signal`: a call is a no-op, drops the
pending signal, or fills it — appending one fresh position whose id is the
tracker's `next_id`, whose `entry_time` is the current candle time and whose
`tp1_hit` starts false. -/
theorem execute_pending_spec (s : StrategyV30) (st : ManagerState)
    (ce pe : Option OptionData) (t : Timestamp) :
    (st.execute_pending_signal s ce pe t = (st, none)) ∨
    (st.pending_signal ≠ none ∧
      st.execute_pending_signal s ce pe t =
        ({ st with pending_signal := none }, none)) ∨
    (st.pending_signal ≠ none ∧ ∃ pos : Position,
      pos.order_id = st.tracker.next_id ∧ pos.entry_time = t ∧
      pos.tp1_hit = false ∧
      st.execute_pending_signal s ce pe t =
        ({ tracker := { st.tracker with
              open_positions := st.tracker.open_positions ++ [pos],
              next_id := st.tracker.next_id + 1 },
            pending_signal := none },
         some st.tracker.next_id)) := by
  unfold ManagerState.execute_pending_signal
  rcases hp : st.pending_signal with _ | ⟨sig, T⟩
  · left; rfl
  · simp only
    split
    · left; rfl
    · rcases sig <;> simp only
      · rcases ce with _ | ⟨op, c0, h0, l0, atr, strk⟩
        · right; left; exact ⟨Option.some_ne_none _, rfl⟩
        · rcases op with _ | O <;> rcases atr with _ | a <;> simp only
          · right; left; exact ⟨Option.some_ne_none _, trivial⟩
          · right; left; exact ⟨Option.some_ne_none _, trivial⟩
          · right; left; exact ⟨Option.some_ne_none _, trivial⟩
          · right; right
            exact ⟨Option.some_ne_none _, _, rfl, rfl, rfl, rfl⟩
      · rcases pe with _ | ⟨op, c0, h0, l0, atr, strk⟩
        · right; left; exact ⟨Option.some_ne_none _, rfl⟩
        · rcases op with _ | O <;> rcases atr with _ | a <;> simp only
          · right; left; exact ⟨Option.some_ne_none _, trivial⟩
          · right; left; exact ⟨Option.some_ne_none _, trivial⟩
          · right; left; exact ⟨Option.some_ne_none _, trivial⟩
          · right; right
            exact ⟨Option.some_ne_none _, _, rfl, rfl, rfl, rfl⟩

theorem pendingCount_le_one (st : ManagerState) : st.pendingCount ≤ 1 := by
  unfold ManagerState.pendingCount
  split <;> omega

theorem invariant_on_signal_detected (s : StrategyV30) (st : ManagerState)
    (sig : Signal) (t : Timestamp)
    (h : st.tracker.open_positions.length + st.pendingCount ≤ 1) :
    (st.on_signal_detected sig t).tracker.open_positions.length +
      (st.on_signal_detected sig t).pendingCount ≤ 1 := by
  unfold ManagerState.on_signal_detected
  split
  · exact h
  · split
    · exact h
    · rename_i h1 _
      unfold TrackerState.get_open_position_count at h1
      simp only [ManagerState.pendingCount, Option.isSome_some, if_pos]
      omega

theorem invariant_update_positions (s : StrategyV30) (st : ManagerState)
    (cp pp ch ph : ℚ) (ce pe : Option OptionData) (ni : NiftyInd)
    (t : Timestamp)
    (h : st.tracker.open_positions.length + st.pendingCount ≤ 1) :
    (st.update_positions s cp pp ch ph ce pe ni t).1.tracker.open_positions.length +
      (st.update_positions s cp pp ch ph ce pe ni t).1.pendingCount ≤ 1 := by
  unfold ManagerState.update_positions
  rcases h1 : (st.execute_pending_signal s ce pe t).1 with ⟨tr1, pend1⟩
  simp only
  have hfold := length_updateLoop_le s cp pp ch ph ni t tr1.open_positions
    tr1 []
  have hsum : tr1.open_positions.length +
      (ManagerState.mk tr1 pend1).pendingCount ≤ 1 := by
    rcases execute_pending_spec s st ce pe t with hc | ⟨hne, hc⟩ | ⟨hne, pos, _, _, _, hc⟩
    · rw [hc] at h1
      cases h1
      exact h
    · rw [hc] at h1
      cases h1
      simpa [ManagerState.pendingCount] using le_trans (Nat.le_add_right _ _) h
    · rw [hc] at h1
      cases h1
      have hpc : st.pendingCount = 1 := by
        unfold ManagerState.pendingCount
        rcases hx : st.pending_signal with _ | _
        · exact absurd hx hne
        · simp
      simp only [ManagerState.pendingCount, List.length_append,
        List.length_singleton, Option.isSome_none, Bool.false_eq_true, if_false]
      omega
  simp only [ManagerState.pendingCount] at hsum ⊢
  omega

theorem invariant_force_close (st : ManagerState) (cp pp : ℚ) (t : Timestamp)
    (h : st.tracker.open_positions.length + st.pendingCount ≤ 1) :
    (st.force_close_all_positions cp pp t).tracker.open_positions.length +
      (st.force_close_all_positions cp pp t).pendingCount ≤ 1 := by
  unfold ManagerState.force_close_all_positions
  simp only
  have hfold : ∀ (snap : List Position) (tr : TrackerState),
      (snap.foldl (fun tr position =>
        (tr.close_position position.order_id
          (match position.side with | .BUY_CE => cp | .BUY_PE => pp)
          .forceEodClose t).1) tr).open_positions.length ≤
        tr.open_positions.length := by
    intro snap
    induction snap with
    | nil => intro tr; exact le_rfl
    | cons p rest ih =>
      intro tr
      exact le_trans (ih _) (length_close_position_le tr p.order_id _ _ _)
  have := hfold st.tracker.open_positions st.tracker
  simp only [ManagerState.pendingCount] at h ⊢
  omega

/-- C2: in every reachable manager state at most one position is open and at
most one pending signal exists (the latter also structurally: the manager
stores a single `Option`), a position and a pending signal never coexist,
and `on_signal_detected` is a no-op whenever a position is open or a pending
signal is already stored — so a new pending signal is never created in
those states. -/
theorem at_most_one_position_and_pending (s : StrategyV30) (st : ManagerState)
    (h : ReachableManager s st) :
    st.tracker.get_open_position_count ≤ 1 ∧
    (1 ≤ st.tracker.get_open_position_count → st.pending_signal = none) ∧
    (∀ sig t, 1 ≤ st.tracker.get_open_position_count ∨
      st.pending_signal ≠ none → st.on_signal_detected sig t = st) := by
  have hinv : st.tracker.open_positions.length + st.pendingCount ≤ 1 := by
    induction h with
    | init => simp [ManagerState.init, TrackerState.init, ManagerState.pendingCount]
    | step hr hstep ih =>
      cases hstep with
      | signal sig t => exact invariant_on_signal_detected s _ sig t ih
      | update cp pp ch ph ce pe ni t =>
        exact invariant_update_positions s _ cp pp ch ph ce pe ni t ih
      | force cp pp t => exact invariant_force_close _ cp pp t ih
  refine ⟨?_, ?_, ?_⟩
  · unfold TrackerState.get_open_position_count
    omega
  · intro h1
    unfold TrackerState.get_open_position_count at h1
    have : st.pendingCount = 0 := by omega
    unfold ManagerState.pendingCount at this
    rcases hx : st.pending_signal with _ | _
    · rfl
    · rw [hx] at this; simp at this
  · intro sig t hor
    unfold ManagerState.on_signal_detected
    split
    · rfl
    · split
      · rfl
      · rename_i h1 h2
        rcases hor with h3 | h3
        · exact absurd h3 h1
        · rcases hx : st.pending_signal with _ | _
          · exact absurd hx h3
          · rw [hx] at h2; simp at h2

/-- C2 witness: the one-signal state is reachable, satisfies the bounds, and
a second signal while one is pending changes nothing. -/
theorem at_most_one_position_and_pending_witness :
    exStPending.tracker.get_open_position_count ≤ 1 ∧
    exStPending.on_signal_detected .BUY_PE ⟨0, 602⟩ = exStPending := by
  have h := at_most_one_position_and_pending defaultStrategy exStPending
    (ReachableManager.step ReachableManager.init
      (ManagerStep.signal ManagerState.init .BUY_CE ⟨0, 600⟩))
  exact ⟨h.1, h.2.2 .BUY_PE ⟨0, 602⟩ (Or.inr (by decide))⟩

/-! ## C7 — the V30 entry-signal decision rule -/

/-- C7: with the default configuration, `check_entry_signal` returns `None`
whenever `idx < 2` or the row's time-of-day lies outside [09:30, 15:10]
(570–910 minutes); otherwise it returns BUY_CE exactly when
`vi_plus > vi_minus`, the gap `vi_plus - vi_minus` strictly widened versus
the previous row, and `close > ema`; BUY_PE under the mirrored bearish
conditions; and `None` in every other case.  The hypotheses fix an in-range
index and a non-NaN row timestamp. -/
theorem check_entry_signal_rule (df : List Row) (idx : Nat) (row prev : Row)
    (ts : Timestamp)
    (hrow : df.get? idx = some row)
    (hprev : df.get? (idx - 1) = some prev)
    (hts : row.timestamp = some ts) :
    (idx < 2 → defaultStrategy.check_entry_signal df idx = none) ∧
    (ts.minutes < 570 ∨ 910 < ts.minutes →
      defaultStrategy.check_entry_signal df idx = none) ∧
    (2 ≤ idx → 570 ≤ ts.minutes → ts.minutes ≤ 910 →
      ((defaultStrategy.check_entry_signal df idx = some .BUY_CE ↔
          row.vi_minus < row.vi_plus ∧
          prev.vi_plus - prev.vi_minus < row.vi_plus - row.vi_minus ∧
          row.ema < row.close) ∧
       (defaultStrategy.check_entry_signal df idx = some .BUY_PE ↔
          row.vi_plus < row.vi_minus ∧
          prev.vi_minus - prev.vi_plus < row.vi_minus - row.vi_plus ∧
          row.close < row.ema) ∧
       (defaultStrategy.check_entry_signal df idx = none ↔
          ¬(row.vi_minus < row.vi_plus ∧
            prev.vi_plus - prev.vi_minus < row.vi_plus - row.vi_minus ∧
            row.ema < row.close) ∧
          ¬(row.vi_plus < row.vi_minus ∧
            prev.vi_minus - prev.vi_plus < row.vi_minus - row.vi_plus ∧
            row.close < row.ema)))) := by
  unfold StrategyV30.check_entry_signal
  rw [hrow, hprev]
  simp only
  rw [hts]
  refine ⟨fun hlt => by simp [hlt], ?_, ?_⟩
  · intro hout
    have hcond : ¬(defaultStrategy.ENTRY_START ≤ ts.minutes ∧
        ts.minutes ≤ defaultStrategy.ENTRY_END) := by
      simp only [defaultStrategy]
      omega
    split
    · rfl
    · simp only
      rw [if_pos]
      simp only [Bool.not_eq_true', Bool.and_eq_false_iff,
        decide_eq_false_iff_not, not_le]
      omega
  · intro hge hlo hhi
    have h2 : ¬ idx < 2 := by omega
    rw [if_neg h2]
    simp only
    rw [if_neg (by
      simp only [defaultStrategy, Bool.not_eq_true', Bool.not_eq_false]
      rw [Bool.and_eq_true]
      constructor <;> simp only [decide_eq_true_eq] <;> omega)]
    rcases lt_trichotomy row.vi_plus row.vi_minus with hv | hv | hv
    · -- bearish side possible
      have hnb : ¬ row.vi_minus < row.vi_plus := lt_asymm hv
      rcases le_or_lt (row.vi_minus - row.vi_plus)
        (prev.vi_minus - prev.vi_plus) with hg | hg
      · simp [hv, hnb, not_lt.mpr hg]
      · rcases lt_trichotomy row.close row.ema with hc | hc | hc
        · simp [hv, hnb, hg, hc]
        · simp [hv, hnb, hg, hc, lt_irrefl]
        · simp [hv, hnb, hg, lt_asymm hc, hc]
    · simp [hv, lt_irrefl]
    · -- bullish side possible
      have hnb : ¬ row.vi_plus < row.vi_minus := lt_asymm hv
      rcases le_or_lt (row.vi_plus - row.vi_minus)
        (prev.vi_plus - prev.vi_minus) with hg | hg
      · simp [hv, hnb, not_lt.mpr hg]
      · rcases lt_trichotomy row.ema row.close with hc | hc | hc
        · simp [hv, hnb, hg, hc, lt_asymm hc]
        · simp [hv, hnb, hg, hc, lt_irrefl]
        · simp [hv, hnb, hg, lt_asymm hc, hc]

/-- C7 witness: a concrete three-row dataframe at 10:00 with a widening
bullish vortex gap and close above the EMA fires BUY_CE; at 09:20 (before
the entry window) the same rows yield no signal. -/
theorem check_entry_signal_rule_witness :
    defaultStrategy.check_entry_signal
      [{ timestamp := some ⟨0, 590⟩, vi_plus := 1, vi_minus := 1, ema := 100,
         close := 100, macd_hist := 0 },
       { timestamp := some ⟨0, 595⟩, vi_plus := 21/20, vi_minus := 1,
         ema := 100, close := 101, macd_hist := 0 },
       { timestamp := some ⟨0, 600⟩, vi_plus := 11/10, vi_minus := 1,
         ema := 100, close := 102, macd_hist := 0 }] 2 = some .BUY_CE ∧
    defaultStrategy.check_entry_signal
      [{ timestamp := some ⟨0, 550⟩, vi_plus := 1, vi_minus := 1, ema := 100,
         close := 100, macd_hist := 0 },
       { timestamp := some ⟨0, 555⟩, vi_plus := 21/20, vi_minus := 1,
         ema := 100, close := 101, macd_hist := 0 },
       { timestamp := some ⟨0, 560⟩, vi_plus := 11/10, vi_minus := 1,
         ema := 100, close := 102, macd_hist := 0 }] 2 = none := by
  constructor
  · have h := check_entry_signal_rule
      [{ timestamp := some ⟨0, 590⟩, vi_plus := 1, vi_minus := 1, ema := 100,
         close := 100, macd_hist := 0 },
       { timestamp := some ⟨0, 595⟩, vi_plus := 21/20, vi_minus := 1,
         ema := 100, close := 101, macd_hist := 0 },
       { timestamp := some ⟨0, 600⟩, vi_plus := 11/10, vi_minus := 1,
         ema := 100, close := 102, macd_hist := 0 }] 2
      { timestamp := some ⟨0, 600⟩, vi_plus := 11/10, vi_minus := 1,
        ema := 100, close := 102, macd_hist := 0 }
      { timestamp := some ⟨0, 595⟩, vi_plus := 21/20, vi_minus := 1,
        ema := 100, close := 101, macd_hist := 0 }
      ⟨0, 600⟩ rfl rfl rfl
    exact ((h.2.2 (by norm_num) (by norm_num) (by norm_num)).1).mpr
      ⟨by norm_num, by norm_num, by norm_num⟩
  · have h := check_entry_signal_rule
      [{ timestamp := some ⟨0, 550⟩, vi_plus := 1, vi_minus := 1, ema := 100,
         close := 100, macd_hist := 0 },
       { timestamp := some ⟨0, 555⟩, vi_plus := 21/20, vi_minus := 1,
         ema := 100, close := 101, macd_hist := 0 },
       { timestamp := some ⟨0, 560⟩, vi_plus := 11/10, vi_minus := 1,
         ema := 100, close := 102, macd_hist := 0 }] 2
      { timestamp := some ⟨0, 560⟩, vi_plus := 11/10, vi_minus := 1,
        ema := 100, close := 102, macd_hist := 0 }
      { timestamp := some ⟨0, 555⟩, vi_plus := 21/20, vi_minus := 1,
        ema := 100, close := 101, macd_hist := 0 }
      ⟨0, 560⟩ rfl rfl rfl
    exact h.2.1 (Or.inl (by norm_num))

/-! ## C4 — indicator warm-up / stability gating -/

/-- C4 (amended): the Phase-3 NIFTY calculator returns false and leaves the
whole calculator state — the stored snapshot included — unchanged whenever
the buffer holds fewer than 50 candles (so exactly 49 gives false, for every
configured period); with the default periods it returns true at 50 or more
candles provided at least 13 of them carry the latest candle's trading date
(the same-day minimum gate).  The TB DHAN Phase-4 variant has no 50-candle
gate: it computes as soon as the buffer reaches
`max(ema_period, vi_period) = 21` candles. -/
theorem nifty_stability_gate :
    (∀ (ep vp : Nat) (st : CalcState), st.nifty_buffer.length < 50 →
      calculateNiftyIndicatorsP3 ep vp st = (st, false)) ∧
    (∀ st : CalcState, 50 ≤ st.nifty_buffer.length → 13 ≤ st.todayCount →
      (calculateNiftyIndicatorsP3 21 21 st).2 = true) ∧
    (∀ st : CalcState, 21 ≤ st.nifty_buffer.length →
      (calculateNiftyIndicatorsP4 21 21 st).2 = true) := by
  refine ⟨?_, ?_, ?_⟩
  · intro ep vp st h
    unfold calculateNiftyIndicatorsP3
    rw [if_pos h]
  · intro st h50 h13
    unfold calculateNiftyIndicatorsP3
    have hmax : ¬ st.nifty_buffer.length < max 21 21 := by
      simp only [max_self]
      omega
    rw [if_neg (not_lt.mpr h50), if_neg hmax]
    have hne : st.nifty_buffer ≠ [] := by
      intro hnil
      rw [hnil] at h50
      simp at h50
    rw [List.getLast?_eq_getLast_of_ne_nil hne]
    simp only
    rw [if_neg (not_lt.mpr h13)]
  · intro st h21
    unfold calculateNiftyIndicatorsP4
    have hmax : ¬ st.nifty_buffer.length < max 21 21 := by
      simp only [max_self]
      omega
    rw [if_neg hmax]

/-- C4 counterexample to the claim as stated: a buffer of exactly 50 valid
candles — 49 of the previous session plus the first candle of a new day —
on which the Phase-3 `calculate_nifty_indicators` returns false (the
same-day gate sees 1 < 13 candles of the latest date), where the claim
promises true at 50 candles with valid OHLC. -/
theorem nifty_stability_gate_counterexample :
    exStSplit.nifty_buffer.length = 50 ∧
    (calculateNiftyIndicatorsP3 21 21 exStSplit).2 = false := by
  constructor
  · decide
  · decide

/-- C4 witness: 50 same-day candles pass the Phase-3 gate; 49 candles fail
it and change nothing; the Phase-4 variant already computes at 49 candles. -/
theorem nifty_stability_gate_witness :
    (calculateNiftyIndicatorsP3 21 21 exSt50).2 = true ∧
    calculateNiftyIndicatorsP3 21 21 exSt49 = (exSt49, false) ∧
    (calculateNiftyIndicatorsP4 21 21 exSt49).2 = true := by
  have h := nifty_stability_gate
  exact ⟨h.2.1 exSt50 (by decide) (by decide),
    h.1 21 21 exSt49 (by decide),
    h.2.2 exSt49 (by decide)⟩

/-! ## C8 — candle-close sequencing: update first, then a gated scan -/

/-- C8 (amended, for the Algo Baddu API Phase-4 orchestrator): every candle
close first runs `update_positions` — which executes any pending T+1 entry
and evaluates exits — and only then consults the signal evaluator, whose
result is used only when no position is open, no pending signal exists and
nothing was closed on this candle; otherwise the scan result is discarded
(`last_signal` stays `WAITING...`) and nothing is enqueued, so the state is
exactly the post-update state. -/
theorem orchestrator_update_first_gated_scan (s : StrategyV30)
    (st : OrchState) (ce pe : OptionData) (ni : NiftyInd)
    (scan : Option Signal) (m1 : ManagerState) (closed : List Nat)
    (h : st.manager.update_positions s ce.close pe.close ce.high pe.high
      (some ce) (some pe) ni ni.timestamp = (m1, closed)) :
    (¬(m1.tracker.get_open_position_count = 0 ∧ m1.pending_signal = none ∧
        closed = []) →
      onCandleClosedAB s st ce pe ni scan =
        { manager := m1, last_signal := none }) ∧
    ((m1.tracker.get_open_position_count = 0 ∧ m1.pending_signal = none ∧
        closed = []) →
      onCandleClosedAB s st ce pe ni scan =
        { manager := match scan with
            | some sig => m1.on_signal_detected sig ni.timestamp
            | none => m1,
          last_signal := scan }) := by
  unfold onCandleClosedAB
  rw [h]
  constructor
  · intro hn
    simp only [if_neg hn]
  · intro hy
    simp only [if_pos hy]

/-- C8 witness: with a signal queued at 10:00 and the 10:00 candle closing
(T+1 not yet reached), the gate blocks the scan — the scan result BUY_PE is
discarded and the state is the unchanged post-update state; from the empty
state the gate is open and the scanned BUY_CE is enqueued for T+1. -/
theorem orchestrator_update_first_gated_scan_witness :
    onCandleClosedAB defaultStrategy { manager := exStPending, last_signal := none }
      exCE exPE { exNifty with timestamp := ⟨0, 600⟩ } (some .BUY_PE) =
      { manager := exStPending, last_signal := none } ∧
    onCandleClosedAB defaultStrategy { manager := ManagerState.init, last_signal := none }
      exCE exPE { exNifty with timestamp := ⟨0, 600⟩ } (some .BUY_CE) =
      { manager := ManagerState.init.on_signal_detected .BUY_CE ⟨0, 600⟩,
        last_signal := some .BUY_CE } := by
  constructor
  · have h := orchestrator_update_first_gated_scan defaultStrategy
      { manager := exStPending, last_signal := none } exCE exPE
      { exNifty with timestamp := ⟨0, 600⟩ } (some .BUY_PE) exStPending []
      (by decide)
    exact h.1 (by decide)
  · have h := orchestrator_update_first_gated_scan defaultStrategy
      { manager := ManagerState.init, last_signal := none } exCE exPE
      { exNifty with timestamp := ⟨0, 600⟩ } (some .BUY_CE) ManagerState.init []
      (by decide)
    exact h.2 (by decide)

/-- C8 counterexample to the claim as stated about the TB DHAN Phase-4
orchestrator (the claim's second cited variant): with a pending BUY_CE
queued at 10:00 awaiting its fill, its candle-close handler consults the
signal scanner FIRST — the raised exception even depends on the scan result
— and aborts before ever calling the T+1 executor or evaluating exits (its
`update_positions` wrapper omits two required arguments, and on a fired
signal `handle_signal` calls a method its order manager does not define),
leaving the pending signal unexecuted; the claim requires pending entries
to be executed first and the evaluator not to be consulted at all here. -/
theorem tb_orchestrator_counterexample :
    (onCandleClosedTB exOrchPending none).error = some .typeError ∧
    (onCandleClosedTB exOrchPending (some .BUY_CE)).error = some .attributeError ∧
    (onCandleClosedTB exOrchPending none).state.manager = exOrchPending.manager ∧
    exOrchPending.manager.pending_signal = some (.BUY_CE, ⟨0, 600⟩) :=
  ⟨rfl, rfl, rfl, by decide⟩

/-! ## Per-order-id frame lemmas for the update loop (C5, C6, C10) -/

theorem filterById_map (i : Nat) (xs : List Position) (g : Position → Position)
    (hg : ∀ q, (g q).order_id = q.order_id)
    (hgi : ∀ q, q.order_id = i → g q = q) :
    filterById i (xs.map g) = filterById i xs := by
  induction xs with
  | nil => rfl
  | cons x rest ih =>
    simp only [List.map_cons, filterById, List.filter_cons] at ih ⊢
    by_cases hx : x.order_id = i
    · have hgx : (g x).order_id = i := by rw [hg x, hx]
      simp only [hgx, hx, beq_self_eq_true, if_pos, hgi x hx, ih]
    · have hgx : ¬ ((g x).order_id == i) = true := by
        simp only [hg x, beq_iff_eq]
        exact hx
      have hx2 : ¬ (x.order_id == i) = true := by
        simp only [beq_iff_eq]
        exact hx
      simp only [if_neg hgx, if_neg hx2, ih]

theorem filterById_filter_ne (i j : Nat) (hij : i ≠ j) (xs : List Position) :
    filterById i (xs.filter (fun p => !(p.order_id == j))) =
      filterById i xs := by
  unfold filterById
  rw [List.filter_filter]
  apply List.filter_congr
  intro a _
  cases hbi : (a.order_id == i) with
  | false => simp [hbi]
  | true =>
    have hai : a.order_id = i := by simpa using hbi
    simp only [hbi, Bool.true_and, hai, Bool.not_eq_true',
      beq_eq_false_iff_ne, ne_eq]
    simp [hij]

theorem filterById_update_position (i j : Nat) (hij : j ≠ i)
    (tr : TrackerState) (c : ℚ) :
    filterById i (tr.update_position j c).open_positions =
      filterById i tr.open_positions := by
  unfold TrackerState.update_position
  apply filterById_map
  · intro q
    split <;> rfl
  · intro q hq
    rw [if_neg]
    simp only [beq_iff_eq]
    rw [hq]
    exact fun h => hij h.symm

theorem filterById_check_tp1_hit (i j : Nat) (hij : j ≠ i)
    (tr : TrackerState) (h : ℚ) :
    filterById i (tr.check_tp1_hit j h).1.open_positions =
      filterById i tr.open_positions := by
  unfold TrackerState.check_tp1_hit
  rcases tr.get_position j with _ | p
  · rfl
  · simp only
    split
    · apply filterById_map
      · intro q
        split <;> rfl
      · intro q hq
        rw [if_neg]
        simp only [beq_iff_eq]
        rw [hq]
        exact fun hh => hij hh.symm
    · rfl

theorem filterById_update_trailing_sl (i j : Nat) (hij : j ≠ i)
    (tr : TrackerState) (v : ℚ) :
    filterById i (tr.update_trailing_sl j v).open_positions =
      filterById i tr.open_positions := by
  unfold TrackerState.update_trailing_sl
  apply filterById_map
  · intro q
    split <;> rfl
  · intro q hq
    rw [if_neg]
    simp only [beq_iff_eq]
    rw [hq]
    exact fun h => hij h.symm

theorem filterById_close_position (i j : Nat) (hij : j ≠ i)
    (tr : TrackerState) (x : ℚ) (r : ExitReason) (t : Timestamp) :
    filterById i (tr.close_position j x r t).1.open_positions =
      filterById i tr.open_positions := by
  unfold TrackerState.close_position
  rcases tr.get_position j with _ | p
  · rfl
  · simp only
    exact filterById_filter_ne i j (fun h => hij h.symm) tr.open_positions

theorem filterById_trackPosition (i : Nat) (cp ch : ℚ) (tr : TrackerState)
    (r : Position) (hij : r.order_id ≠ i) :
    filterById i (trackPosition cp ch tr r).open_positions =
      filterById i tr.open_positions := by
  unfold trackPosition
  rcases h2 : (tr.update_position r.order_id cp).check_tp1_hit r.order_id ch
    with ⟨tr2, hit⟩
  have e1 := filterById_update_position i r.order_id hij tr cp
  have e2 := filterById_check_tp1_hit i r.order_id hij
    (tr.update_position r.order_id cp) ch
  rw [h2] at e2
  simp only at e2
  simp only [h2]
  split
  · rw [filterById_update_trailing_sl i r.order_id hij tr2 _, e2, e1]
  · rw [e2, e1]

theorem filterById_exitPosition (i : Nat) (s : StrategyV30) (cp : ℚ)
    (ni : NiftyInd) (t : Timestamp) (tr : TrackerState) (j : Nat)
    (hij : j ≠ i) :
    filterById i (exitPosition s cp ni t tr j).1.open_positions =
      filterById i tr.open_positions := by
  unfold exitPosition
  rcases tr.get_position j with _ | live
  · rfl
  · simp only
    rcases ManagerState.check_exit_conditions s live cp ni t with _ | ⟨er, ex⟩
    · rfl
    · simp only
      rcases h6 : tr.close_position j ex er t with ⟨tr4, copt⟩
      have hcl := filterById_close_position i j hij tr ex er t
      rw [h6] at hcl
      rcases copt with _ | c <;> simpa using hcl

/-- The closed-id output of one exit evaluation: nothing, or the evaluated
position's own order id. -/
theorem exitPosition_closed (s : StrategyV30) (cp : ℚ) (ni : NiftyInd)
    (t : Timestamp) (tr : TrackerState) (j : Nat) :
    (exitPosition s cp ni t tr j).2 = none ∨
      (exitPosition s cp ni t tr j).2 = some j := by
  unfold exitPosition
  rcases tr.get_position j with _ | live
  · left; rfl
  · simp only
    rcases ManagerState.check_exit_conditions s live cp ni t with _ | ⟨er, ex⟩
    · left; rfl
    · simp only
      rcases tr.close_position j ex er t with ⟨tr4, copt⟩
      rcases copt with _ | c
      · left; rfl
      · right; rfl

theorem updateLoopStep_skip (s : StrategyV30) (cp pp ch ph : ℚ)
    (ni : NiftyInd) (t : Timestamp) (acc : TrackerState × List Nat)
    (r : Position) (h : t = r.entry_time) :
    ManagerState.updateLoopStep s cp pp ch ph ni t acc r = acc := by
  unfold ManagerState.updateLoopStep
  rw [if_pos h]

/-- A loop iteration whose position is skipped (entry candle) or carries a
different order id leaves the id-`i` entries untouched and never reports
`i` as closed. -/
theorem updateLoopStep_frame (s : StrategyV30) (cp pp ch ph : ℚ)
    (ni : NiftyInd) (t : Timestamp) (i : Nat)
    (acc : TrackerState × List Nat) (r : Position)
    (hr : r.order_id = i → t = r.entry_time) :
    filterById i
        (ManagerState.updateLoopStep s cp pp ch ph ni t acc r).1.open_positions =
      filterById i acc.1.open_positions ∧
    ((ManagerState.updateLoopStep s cp pp ch ph ni t acc r).2 = acc.2 ∨
      ∃ j, j ≠ i ∧
        (ManagerState.updateLoopStep s cp pp ch ph ni t acc r).2 =
          acc.2 ++ [j]) := by
  by_cases hskip : t = r.entry_time
  · rw [updateLoopStep_skip s cp pp ch ph ni t acc r hskip]
    exact ⟨rfl, Or.inl rfl⟩
  · have hij : r.order_id ≠ i := fun h => hskip (hr h)
    unfold ManagerState.updateLoopStep
    rw [if_neg hskip]
    simp only
    rcases h4 : exitPosition s (match r.side with | .BUY_CE => cp | .BUY_PE => pp)
        ni t (trackPosition (match r.side with | .BUY_CE => cp | .BUY_PE => pp)
          (match r.side with | .BUY_CE => ch | .BUY_PE => ph) acc.1 r)
        r.order_id with ⟨tr4, cid⟩
    have hex := filterById_exitPosition i s
      (match r.side with | .BUY_CE => cp | .BUY_PE => pp) ni t
      (trackPosition (match r.side with | .BUY_CE => cp | .BUY_PE => pp)
        (match r.side with | .BUY_CE => ch | .BUY_PE => ph) acc.1 r)
      r.order_id hij
    rw [h4] at hex
    simp only at hex
    have htrk := filterById_trackPosition i
      (match r.side with | .BUY_CE => cp | .BUY_PE => pp)
      (match r.side with | .BUY_CE => ch | .BUY_PE => ph) acc.1 r hij
    have hcl := exitPosition_closed s
      (match r.side with | .BUY_CE => cp | .BUY_PE => pp) ni t
      (trackPosition (match r.side with | .BUY_CE => cp | .BUY_PE => pp)
        (match r.side with | .BUY_CE => ch | .BUY_PE => ph) acc.1 r)
      r.order_id
    rw [h4] at hcl
    simp only at hcl
    constructor
    · simp only [h4]
      rw [hex, htrk]
    · simp only [h4]
      rcases hcl with hcl | hcl
      · left
        rw [hcl]
        simp [Option.toList]
      · right
        exact ⟨r.order_id, hij, by rw [hcl]; simp [Option.toList]⟩

/-- Folding the update loop over a snapshot whose id-`i` members are all on
their entry candle leaves the id-`i` entries untouched and never closes
id `i`. -/
theorem updateLoop_frame (s : StrategyV30) (cp pp ch ph : ℚ) (ni : NiftyInd)
    (t : Timestamp) (i : Nat) (snap : List Position)
    (acc : TrackerState × List Nat)
    (hsnap : ∀ r ∈ snap, r.order_id = i → t = r.entry_time)
    (hacc : i ∉ acc.2) :
    filterById i
        ((snap.foldl (ManagerState.updateLoopStep s cp pp ch ph ni t)
          acc).1.open_positions) =
      filterById i acc.1.open_positions ∧
    i ∉ (snap.foldl (ManagerState.updateLoopStep s cp pp ch ph ni t) acc).2 := by
  induction snap generalizing acc with
  | nil => exact ⟨rfl, hacc⟩
  | cons r rest ih =>
    have hstep := updateLoopStep_frame s cp pp ch ph ni t i acc r
      (fun h => hsnap r (List.mem_cons_self r rest) h)
    have hacc2 : i ∉ (ManagerState.updateLoopStep s cp pp ch ph ni t acc r).2 := by
      rcases hstep.2 with h2 | ⟨j, hji, h2⟩
      · rw [h2]; exact hacc
      · rw [h2]
        intro hmem
        rcases List.mem_append.mp hmem with hm | hm
        · exact hacc hm
        · exact hji ((List.mem_singleton.mp hm).symm)
    have := ih (ManagerState.updateLoopStep s cp pp ch ph ni t acc r)
      (fun r' hr' => hsnap r' (List.mem_cons_of_mem r hr')) hacc2
    refine ⟨?_, ?_⟩
    · rw [List.foldl_cons, this.1, hstep.1]
    · rw [List.foldl_cons]
      exact this.2

/-- In a tracker whose open ids are distinct, the id-filter extracts exactly
the one matching position. -/
theorem filterById_eq_single (p : Position) (xs : List Position)
    (hp : p ∈ xs) (hnodup : (xs.map Position.order_id).Nodup) :
    filterById p.order_id xs = [p] := by
  induction xs with
  | nil => cases hp
  | cons x rest ih =>
    have hnd : x.order_id ∉ rest.map Position.order_id ∧
        (rest.map Position.order_id).Nodup := by
      rw [List.map_cons] at hnodup
      exact List.nodup_cons.mp hnodup
    rcases List.mem_cons.mp hp with rfl | hmem
    · have hrest : filterById p.order_id rest = [] := by
        apply List.filter_eq_nil_iff.mpr
        intro a ha
        simp only [beq_iff_eq]
        intro he
        exact hnd.1 (he ▸ List.mem_map_of_mem Position.order_id ha)
      simp only [filterById, List.filter_cons, beq_self_eq_true, if_pos]
      rw [show List.filter (fun q => q.order_id == p.order_id) rest =
        filterById p.order_id rest from rfl, hrest]
    · have hx : ¬ (x.order_id == p.order_id) = true := by
        simp only [beq_iff_eq]
        intro he
        exact hnd.1 (he ▸ List.mem_map_of_mem Position.order_id hmem)
      simp only [filterById, List.filter_cons, if_neg hx]
      exact ih hmem hnd.2

/-- Master frame lemma for `update_positions`: if every stored position with
order id `i` is on its entry candle (and `i` is an already-assigned id),
the call leaves the id-`i` entries exactly as they were and never reports
`i` closed. -/
theorem update_positions_frame (s : StrategyV30) (st : ManagerState)
    (cp pp ch ph : ℚ) (ce pe : Option OptionData) (ni : NiftyInd)
    (t : Timestamp) (i : Nat)
    (hsnap : ∀ r ∈ st.tracker.open_positions, r.order_id = i →
      t = r.entry_time)
    (hid : i < st.tracker.next_id) :
    filterById i
        (st.update_positions s cp pp ch ph ce pe ni t).1.tracker.open_positions =
      filterById i st.tracker.open_positions ∧
    i ∉ (st.update_positions s cp pp ch ph ce pe ni t).2 := by
  unfold ManagerState.update_positions
  rcases execute_pending_spec s st ce pe t with hc | ⟨hne, hc⟩ |
    ⟨hne, pos, hpid, hpt, hph, hc⟩
  · rw [hc]
    simp only
    exact updateLoop_frame s cp pp ch ph ni t i st.tracker.open_positions
      (st.tracker, []) hsnap (by simp)
  · rw [hc]
    simp only
    exact updateLoop_frame s cp pp ch ph ni t i st.tracker.open_positions
      (st.tracker, []) hsnap (by simp)
  · rw [hc]
    simp only
    have hsnap2 : ∀ r ∈ st.tracker.open_positions ++ [pos],
        r.order_id = i → t = r.entry_time := by
      intro r hr hri
      rcases List.mem_append.mp hr with hm | hm
      · exact hsnap r hm hri
      · rw [List.mem_singleton.mp hm, hpt]
    have hloop := updateLoop_frame s cp pp ch ph ni t i
      (st.tracker.open_positions ++ [pos])
      ({ st.tracker with
          open_positions := st.tracker.open_positions ++ [pos],
          next_id := st.tracker.next_id + 1 }, []) hsnap2 (by simp)
    refine ⟨?_, hloop.2⟩
    rw [hloop.1]
    simp only [filterById, List.filter_append]
    have hpos : ¬ (pos.order_id == i) = true := by
      simp only [beq_iff_eq, hpid]
      omega
    simp [List.filter_cons, hpos]

/-! ## C5 — no exit can fire on the entry candle -/

/-- C5: an `update_positions` call whose candle time equals a position's
`entry_time` closes that position under no circumstances — its order id is
absent from the returned closed-order list, whatever the prices.  The id
hypotheses state what holds of every tracker the manager builds: distinct
ids, all below `next_id`. -/
theorem entry_candle_no_exit (s : StrategyV30) (st : ManagerState)
    (cp pp ch ph : ℚ) (ce pe : Option OptionData) (ni : NiftyInd)
    (t : Timestamp) (p : Position)
    (hp : p ∈ st.tracker.open_positions)
    (ht : p.entry_time = t)
    (hnodup : (st.tracker.open_positions.map Position.order_id).Nodup)
    (hid : p.order_id < st.tracker.next_id) :
    p.order_id ∉ (st.update_positions s cp pp ch ph ce pe ni t).2 := by
  have hsnap : ∀ r ∈ st.tracker.open_positions, r.order_id = p.order_id →
      t = r.entry_time := by
    intro r hr hri
    have hr_eq : r = p := List.inj_on_of_nodup_map hnodup hr hp hri
    rw [hr_eq, ht]
  exact (update_positions_frame s st cp pp ch ph ce pe ni t p.order_id
    hsnap hid).2

/-- C5 witness: on the entry candle 10:05 with the close crashed to 1 (far
below the stop) and past the EOD exit price check, the freshly opened
position is still not closed. -/
theorem entry_candle_no_exit_witness :
    exOpenPos.order_id ∉ (exMgrOpen.update_positions defaultStrategy 1 1 1 1
      none none exNifty ⟨0, 605⟩).2 :=
  entry_candle_no_exit defaultStrategy exMgrOpen 1 1 1 1 none none exNifty
    ⟨0, 605⟩ exOpenPos (by simp [exMgrOpen]) rfl (by simp [exMgrOpen])
    (by simp [exMgrOpen, exOpenPos])

/-! ## C10 — the entry candle is a complete frame for the position record -/

/-- C10: an `update_positions` call whose candle time equals a position's
`entry_time` leaves that position's whole record untouched — the entry with
its order id in the resulting tracker is exactly the old record (same
`current_price`, `highest_price`, unrealized P&L, `tp1_hit` and `sl`), even
if the candle's high clears TP1 or its close is below the stop. -/
theorem entry_candle_frame_effect (s : StrategyV30) (st : ManagerState)
    (cp pp ch ph : ℚ) (ce pe : Option OptionData) (ni : NiftyInd)
    (t : Timestamp) (p q : Position)
    (hp : p ∈ st.tracker.open_positions)
    (ht : p.entry_time = t)
    (hnodup : (st.tracker.open_positions.map Position.order_id).Nodup)
    (hid : p.order_id < st.tracker.next_id)
    (hq : q ∈ (st.update_positions s cp pp ch ph ce pe ni t).1.tracker.open_positions)
    (hqid : q.order_id = p.order_id) :
    q = p ∧
      p ∈ (st.update_positions s cp pp ch ph ce pe ni t).1.tracker.open_positions := by
  have hsnap : ∀ r ∈ st.tracker.open_positions, r.order_id = p.order_id →
      t = r.entry_time := by
    intro r hr hri
    have hr_eq : r = p := List.inj_on_of_nodup_map hnodup hr hp hri
    rw [hr_eq, ht]
  have hframe := (update_positions_frame s st cp pp ch ph ce pe ni t
    p.order_id hsnap hid).1
  have hres : filterById p.order_id
      (st.update_positions s cp pp ch ph ce pe ni t).1.tracker.open_positions
        = [p] := by
    rw [hframe]
    exact filterById_eq_single p st.tracker.open_positions hp hnodup
  have hq' : q ∈ filterById p.order_id
      (st.update_positions s cp pp ch ph ce pe ni t).1.tracker.open_positions := by
    unfold filterById
    exact List.mem_filter.mpr ⟨hq, by simp [hqid]⟩
  rw [hres] at hq'
  refine ⟨List.mem_singleton.mp hq', ?_⟩
  have hpmem : p ∈ filterById p.order_id
      (st.update_positions s cp pp ch ph ce pe ni t).1.tracker.open_positions := by
    rw [hres]
    exact List.mem_singleton_self p
  exact List.mem_of_mem_filter hpmem

/-- C10 witness: on the entry candle, with the close at 1 (below the 112.5
stop) and the high at 1000 (above the 130.5 TP1), the position record in
the tracker afterwards is exactly the record set at open — TP1 did not
latch and the stop did not move. -/
theorem entry_candle_frame_effect_witness :
    exOpenPos ∈ (exMgrOpen.update_positions defaultStrategy 1 1 1000 1000
      none none exNifty ⟨0, 605⟩).1.tracker.open_positions ∧
    exOpenPos.tp1_hit = false ∧ exOpenPos.sl = exOpenPos.initial_sl := by
  have hopen : (exMgrOpen.update_positions defaultStrategy 1 1 1000 1000
      none none exNifty ⟨0, 605⟩).1.tracker.open_positions = [exOpenPos] := by
    simp only [ManagerState.update_positions, ManagerState.execute_pending_signal,
      exMgrOpen, List.foldl]
    rw [updateLoopStep_skip defaultStrategy 1 1 1000 1000 exNifty ⟨0, 605⟩
      _ exOpenPos rfl]
  have h := entry_candle_frame_effect defaultStrategy exMgrOpen 1 1 1000 1000
    none none exNifty ⟨0, 605⟩ exOpenPos exOpenPos (by simp [exMgrOpen]) rfl
    (by simp [exMgrOpen]) (by simp [exMgrOpen, exOpenPos])
    (by rw [hopen]; exact List.mem_singleton_self exOpenPos) rfl
  exact ⟨h.2, rfl, rfl⟩

/-! ## C6 — stop-loss is frozen (hence non-decreasing) once TP1 is latched -/

theorem slLocked_map (i : Nat) (v : ℚ) (xs : List Position)
    (g : Position → Position)
    (hg : ∀ q, (g q).order_id = q.order_id)
    (hsl : ∀ q, (g q).sl = q.sl)
    (htp : ∀ q, q.tp1_hit = true → (g q).tp1_hit = true)
    (h : slLocked i v xs) : slLocked i v (xs.map g) := by
  intro q' hq' hq'i
  rcases List.mem_map.mp hq' with ⟨q, hq, rfl⟩
  have hqi : q.order_id = i := by rw [← hg q]; exact hq'i
  obtain ⟨h1, h2⟩ := h q hq hqi
  exact ⟨by rw [hsl q, h1], htp q h2⟩

theorem slLocked_update_position (i : Nat) (v : ℚ) (tr : TrackerState)
    (j : Nat) (c : ℚ) (h : slLocked i v tr.open_positions) :
    slLocked i v (tr.update_position j c).open_positions := by
  unfold TrackerState.update_position
  refine slLocked_map i v _ _ ?_ ?_ ?_ h <;> intro q
  · split <;> rfl
  · split <;> rfl
  · intro hq
    split <;> exact hq

theorem slLocked_check_tp1_hit (i : Nat) (v : ℚ) (tr : TrackerState)
    (j : Nat) (hi : ℚ) (hl : slLocked i v tr.open_positions) :
    slLocked i v (tr.check_tp1_hit j hi).1.open_positions ∧
      (j = i → (tr.check_tp1_hit j hi).2 = false) := by
  unfold TrackerState.check_tp1_hit
  rcases hfind : tr.get_position j with _ | p0
  · exact ⟨hl, fun _ => rfl⟩
  · unfold TrackerState.get_position at hfind
    have hm := List.mem_of_find?_eq_some hfind
    have hp0 : p0.order_id = j := by simpa using List.find?_some hfind
    simp only
    constructor
    · split
      · refine slLocked_map i v _ _ ?_ ?_ ?_ hl <;> intro q
        · split <;> rfl
        · split <;> rfl
        · intro hq
          split
          · rfl
          · exact hq
      · exact hl
    · intro hj
      subst hj
      have htp := (hl p0 hm hp0).2
      rw [if_neg]
      simp [htp]

theorem slLocked_update_trailing_sl (i : Nat) (v : ℚ) (tr : TrackerState)
    (j : Nat) (v' : ℚ) (hij : j ≠ i) (h : slLocked i v tr.open_positions) :
    slLocked i v (tr.update_trailing_sl j v').open_positions := by
  unfold TrackerState.update_trailing_sl
  intro q' hq' hi
  rcases List.mem_map.mp hq' with ⟨q, hq, rfl⟩
  have hqi : q.order_id = i := by
    revert hi
    split <;> exact id
  have hne : ¬ (q.order_id == j) = true := by
    simp only [beq_iff_eq, hqi]
    exact fun hh => hij hh.symm
  rw [if_neg hne]
  exact h q hq hqi

theorem slLocked_close_position (i : Nat) (v : ℚ) (tr : TrackerState)
    (j : Nat) (x : ℚ) (r : ExitReason) (t : Timestamp)
    (h : slLocked i v tr.open_positions) :
    slLocked i v (tr.close_position j x r t).1.open_positions := by
  unfold TrackerState.close_position
  rcases tr.get_position j with _ | p0
  · exact h
  · simp only
    intro q hq hqi
    exact h q (List.mem_of_mem_filter hq) hqi

theorem slLocked_trackPosition (i : Nat) (v : ℚ) (cp ch : ℚ)
    (tr : TrackerState) (r : Position) (h : slLocked i v tr.open_positions) :
    slLocked i v (trackPosition cp ch tr r).open_positions := by
  unfold trackPosition
  rcases h2 : (tr.update_position r.order_id cp).check_tp1_hit r.order_id ch
    with ⟨tr2, hit⟩
  have h1 := slLocked_update_position i v tr r.order_id cp h
  have hck := slLocked_check_tp1_hit i v (tr.update_position r.order_id cp)
    r.order_id ch h1
  rw [h2] at hck
  simp only at hck
  simp only [h2]
  split <;> rename_i hhit
  · have hij : r.order_id ≠ i := by
      intro he
      rw [hck.2 he] at hhit
      cases hhit
    exact slLocked_update_trailing_sl i v tr2 r.order_id _ hij hck.1
  · exact hck.1

theorem slLocked_exitPosition (i : Nat) (v : ℚ) (s : StrategyV30) (cp : ℚ)
    (ni : NiftyInd) (t : Timestamp) (tr : TrackerState) (j : Nat)
    (h : slLocked i v tr.open_positions) :
    slLocked i v (exitPosition s cp ni t tr j).1.open_positions := by
  unfold exitPosition
  rcases tr.get_position j with _ | live
  · exact h
  · simp only
    rcases ManagerState.check_exit_conditions s live cp ni t with _ | ⟨er, ex⟩
    · exact h
    · simp only
      rcases h6 : tr.close_position j ex er t with ⟨tr4, copt⟩
      have hcl := slLocked_close_position i v tr j ex er t h
      rw [h6] at hcl
      rcases copt with _ | c <;> simpa using hcl

theorem slLocked_updateLoopStep (i : Nat) (v : ℚ) (s : StrategyV30)
    (cp pp ch ph : ℚ) (ni : NiftyInd) (t : Timestamp)
    (acc : TrackerState × List Nat) (r : Position)
    (h : slLocked i v acc.1.open_positions) :
    slLocked i v
      (ManagerState.updateLoopStep s cp pp ch ph ni t acc r).1.open_positions := by
  unfold ManagerState.updateLoopStep
  split
  · exact h
  · simp only
    rcases h4 : exitPosition s (match r.side with | .BUY_CE => cp | .BUY_PE => pp)
        ni t (trackPosition (match r.side with | .BUY_CE => cp | .BUY_PE => pp)
          (match r.side with | .BUY_CE => ch | .BUY_PE => ph) acc.1 r)
        r.order_id with ⟨tr4, cid⟩
    have hh := slLocked_exitPosition i v s
      (match r.side with | .BUY_CE => cp | .BUY_PE => pp) ni t
      (trackPosition (match r.side with | .BUY_CE => cp | .BUY_PE => pp)
        (match r.side with | .BUY_CE => ch | .BUY_PE => ph) acc.1 r)
      r.order_id
      (slLocked_trackPosition i v
        (match r.side with | .BUY_CE => cp | .BUY_PE => pp)
        (match r.side with | .BUY_CE => ch | .BUY_PE => ph) acc.1 r h)
    rw [h4] at hh
    simp only at hh
    simpa [h4] using hh

theorem slLocked_updateLoop (i : Nat) (v : ℚ) (s : StrategyV30)
    (cp pp ch ph : ℚ) (ni : NiftyInd) (t : Timestamp)
    (snap : List Position) (acc : TrackerState × List Nat)
    (h : slLocked i v acc.1.open_positions) :
    slLocked i v
      ((snap.foldl (ManagerState.updateLoopStep s cp pp ch ph ni t)
        acc).1.open_positions) := by
  induction snap generalizing acc with
  | nil => exact h
  | cons r rest ih =>
    rw [List.foldl_cons]
    exact ih _ (slLocked_updateLoopStep i v s cp pp ch ph ni t acc r h)

/-- C6 (amended): once a position's `tp1_hit` is latched, its stop-loss is
frozen by `update_positions` — every later record with its order id carries
the same `sl` (so the post-TP1 stop-loss sequence is constant, in
particular non-decreasing).  This is the manager's own call pattern: inside
`update_positions`, `update_trailing_sl` fires only on the TP1-hit
transition, with the fixed profit lock `round(entry_price + 13, 2)`. -/
theorem sl_frozen_after_tp1 (s : StrategyV30) (st : ManagerState)
    (cp pp ch ph : ℚ) (ce pe : Option OptionData) (ni : NiftyInd)
    (t : Timestamp) (i : Nat) (v : ℚ)
    (hall : slLocked i v st.tracker.open_positions)
    (hid : i < st.tracker.next_id)
    (q : Position)
    (hq : q ∈ (st.update_positions s cp pp ch ph ce pe ni t).1.tracker.open_positions)
    (hqi : q.order_id = i) :
    q.sl = v ∧ q.tp1_hit = true := by
  unfold ManagerState.update_positions at hq
  rcases execute_pending_spec s st ce pe t with hc | ⟨hne, hc⟩ |
    ⟨hne, pos, hpid, hpt, hph, hc⟩
  · rw [hc] at hq
    simp only at hq
    exact slLocked_updateLoop i v s cp pp ch ph ni t
      st.tracker.open_positions (st.tracker, []) hall q hq hqi
  · rw [hc] at hq
    simp only at hq
    exact slLocked_updateLoop i v s cp pp ch ph ni t
      st.tracker.open_positions (st.tracker, []) hall q hq hqi
  · rw [hc] at hq
    simp only at hq
    have hall2 : slLocked i v (st.tracker.open_positions ++ [pos]) := by
      intro r hr hri
      rcases List.mem_append.mp hr with hm | hm
      · exact hall r hm hri
      · rw [List.mem_singleton.mp hm] at hri
        rw [hpid] at hri
        omega
    exact slLocked_updateLoop i v s cp pp ch ph ni t
      (st.tracker.open_positions ++ [pos])
      ({ st.tracker with
          open_positions := st.tracker.open_positions ++ [pos],
          next_id := st.tracker.next_id + 1 }, []) hall2 q hq hqi

/-- C6 counterexample to the claim as stated: `update_trailing_sl` itself
never compares against the old stop — called directly on a TP1-latched
position holding `sl = 10` with `new_sl = 5`, it lowers the stop. -/
theorem update_trailing_sl_counterexample :
    ((exTrLocked.get_position 0).map Position.sl = some 10) ∧
    ((exTrLocked.get_position 0).map Position.tp1_hit = some true) ∧
    (((exTrLocked.update_trailing_sl 0 5).get_position 0).map Position.sl =
      some 5) ∧
    (5 : ℚ) < 10 := by
  refine ⟨rfl, rfl, rfl, by norm_num⟩

/-- C6 witness: a quiet 10:15 candle on the TP1-latched position leaves the
stop at 10 (the locked value) with TP1 still latched. -/
theorem sl_frozen_after_tp1_witness :
    lockedPos ∈ (exMgrLocked.update_positions defaultStrategy 140 80 141 81
      none none exNifty615 ⟨0, 615⟩).1.tracker.open_positions ∧
    lockedPos.sl = 10 ∧ lockedPos.tp1_hit = true := by
  have hopen : (exMgrLocked.update_positions defaultStrategy 140 80 141 81
      none none exNifty615 ⟨0, 615⟩).1.tracker.open_positions = [lockedPos] := by
    simp only [ManagerState.update_positions, ManagerState.execute_pending_signal,
      exMgrLocked, exTrLocked, List.foldl]
    simp only [ManagerState.updateLoopStep, trackPosition, exitPosition,
      TrackerState.update_position, TrackerState.check_tp1_hit,
      TrackerState.get_position, TrackerState.update_trailing_sl,
      TrackerState.close_position, ManagerState.check_exit_conditions,
      StrategyV30.check_sl_hit, StrategyV30.check_macd_ema_exit,
      StrategyV30.check_eod_exit, List.find?, List.map, defaultStrategy,
      lockedPos, exTp1Pos, exNifty615]
    norm_num [round2, Position.mk.injEq, Timestamp.mk.injEq]
  have hmem : lockedPos ∈ (exMgrLocked.update_positions defaultStrategy 140 80
      141 81 none none exNifty615 ⟨0, 615⟩).1.tracker.open_positions := by
    rw [hopen]
    exact List.mem_singleton_self lockedPos
  have h := sl_frozen_after_tp1 defaultStrategy exMgrLocked 140 80 141 81
    none none exNifty615 ⟨0, 615⟩ 0 10
    (by
      intro r hr hri
      have : r = lockedPos := by
        simpa [exMgrLocked, exTrLocked] using hr
      rw [this]
      exact ⟨rfl, rfl⟩)
    (by simp [exMgrLocked, exTrLocked]) lockedPos hmem rfl
  exact ⟨hmem, h.1, h.2⟩

end AlgoBaddu
